import Mathlib

/-! Runscope Terraform provider: import resolution, lifecycle handlers, environment mapping.

A shallow embedding of

* `internal/provider/resource_runscope_step_request.go` (importer, Create/Read/Update),
* `internal/provider/resource_runscope_step_subtest.go` (Create/Read/Update, expand),
* `internal/runscope/environment.go` (`Emails.IsDefault`, `EnvironmentFromSchema`,
  request bodies of `Create` and `Update`),

together with the few pieces of the Go standard library and of the plugin SDK that
these functions call (`strings.Split`, `strconv.Atoi`, `ResourceData`, `diag.Errorf`).

Go strings are Lean strings read as character sequences.  Both separators used by the
importer are one-byte ASCII characters and `strconv` accepts ASCII digits only, so on
well-formed UTF-8 the byte-wise Go loops and the character-wise loops below agree.
-/

namespace Runscope

/-! ## Go standard library -/

namespace strings

/-- Character-level `strings.Split` for a one-character separator: the pieces of the
input between consecutive separators, in order.  The result is never empty. -/
def splitChars (sep : Char) : List Char → List (List Char)
  | [] => [[]]
  | c :: cs =>
    if c = sep then [] :: splitChars sep cs
    else
      match splitChars sep cs with
      | [] => [[c]]
      | p :: ps => (c :: p) :: ps

/-- Go `strings.Split(s, sep)` where `sep` is a single character, as at both call
sites of the importer (`"/"` and `"#"`). -/
def Split (s : String) (sep : Char) : List String :=
  (splitChars sep s.data).map String.mk

end strings

namespace strconv

/-- The two error kinds of `strconv.NumError`. -/
inductive NumError where
  | ErrSyntax
  | ErrRange
deriving DecidableEq, Repr

/-- Size of Go `int` in bits (64-bit platforms). -/
def IntSize : Nat := 64

/-- Largest `uint64`. -/
def maxUint64 : Nat := 2 ^ 64 - 1

/-- Digit value of one input character in the `ParseUint` loop: decimal digits give
`0..9`, ASCII letters give `10..35`, anything else has no digit value (the `default`
case of the switch; with base 10 the underscore case is not enabled). -/
def digitOf (c : Char) : Option Nat :=
  if 48 ≤ c.toNat ∧ c.toNat ≤ 57 then some (c.toNat - 48)
  else if 97 ≤ c.toNat ∧ c.toNat ≤ 122 then some (c.toNat - 97 + 10)
  else if 65 ≤ c.toNat ∧ c.toNat ≤ 90 then some (c.toNat - 65 + 10)
  else none

/-- The digit loop of `strconv.ParseUint(s, 10, 64)`, started with accumulator `n`.
`n` is a `uint64`; the addition wraps modulo `2 ^ 64`. -/
def parseUintLoop : List Char → Nat → Except NumError Nat
  | [], n => .ok n
  | c :: cs, n =>
    match digitOf c with
    | none => .error .ErrSyntax
    | some d =>
      if d ≥ 10 then .error .ErrSyntax
      else if n ≥ maxUint64 / 10 + 1 then .error .ErrRange
      else
        let n10 := n * 10
        let n1 := (n10 + d) % 2 ^ 64
        if n1 < n10 ∨ n1 > maxUint64 then .error .ErrRange
        else parseUintLoop cs n1

/-- Go `strconv.ParseUint(s, 10, 64)`. -/
def ParseUint (s : List Char) : Except NumError Nat :=
  match s with
  | [] => .error .ErrSyntax
  | _ => parseUintLoop s 0

/-- Go `strconv.ParseInt(s, 10, 0)`: optional sign, then `ParseUint`, then the range
check against `1 << (IntSize - 1)`. -/
def ParseInt (s : List Char) : Except NumError Int :=
  match s with
  | [] => .error .ErrSyntax
  | c :: cs =>
    let neg := c = '-'
    let body := if c = '+' ∨ c = '-' then cs else c :: cs
    match ParseUint body with
    | .error e => .error e
    | .ok un =>
      let cutoff := 2 ^ (IntSize - 1)
      if ¬ neg ∧ un ≥ cutoff then .error .ErrRange
      else if neg ∧ un > cutoff then .error .ErrRange
      else .ok (if neg then - (un : Int) else (un : Int))

/-- Go `strconv.Atoi(s)`, documented as `ParseInt(s, 10, 0)` converted to `int`. -/
def Atoi (s : String) : Except NumError Int :=
  ParseInt s.data

end strconv

/-! ## Plugin SDK: resource data and diagnostics -/

/-- Values an attribute of these resources can hold: strings, booleans, lists of
strings, and lists/sets of nested blocks whose fields are all strings. -/
inductive Value where
  | str (s : String)
  | bool (b : Bool)
  | strs (l : List String)
  | blocks (l : List (List (String × String)))
deriving DecidableEq, Repr

/-- The SDK's `schema.ResourceData`: the resource ID and the attribute values by key. -/
structure ResourceData where
  id : String
  attrs : String → Option Value

namespace ResourceData

/-- SDK `d.Id()`. -/
def Id (d : ResourceData) : String := d.id

/-- SDK `d.SetId(v)`. -/
def SetId (d : ResourceData) (v : String) : ResourceData :=
  { d with id := v }

/-- SDK `d.Set(key, value)`. -/
def Set (d : ResourceData) (key : String) (v : Value) : ResourceData :=
  { d with attrs := fun k => if k = key then some v else d.attrs k }

/-- SDK `d.Get(key).(string)`: the zero value when the attribute is not set. -/
def GetString (d : ResourceData) (key : String) : String :=
  match d.attrs key with
  | some (.str s) => s
  | _ => ""

/-- SDK `d.Get(key).(bool)`. -/
def GetBool (d : ResourceData) (key : String) : Bool :=
  match d.attrs key with
  | some (.bool b) => b
  | _ => false

/-- Zero-value test used by `GetOk`. -/
def isZero : Value → Bool
  | .str s => s == ""
  | .bool b => !b
  | .strs l => l.isEmpty
  | .blocks l => l.isEmpty

/-- SDK `d.GetOk(key)`: the value, provided the attribute is set to a non-zero value. -/
def GetOk (d : ResourceData) (key : String) : Option Value :=
  match d.attrs key with
  | some v => if isZero v then none else some v
  | none => none

end ResourceData

/-- A resource is present when its ID is non-empty. -/
def ResourceData.present (d : ResourceData) : Prop := d.id ≠ ""

/-- What the handlers observe of a Go `error` returned by the transport client: the
text of `err.Error()`, the answer of the provider's `isNotFound` helper, and whether
`errors.As` finds a `runscope.Error` in it. -/
structure GoError where
  text : String
  notFound : Bool
  asRunscopeError : Bool
deriving DecidableEq, Repr

/-- Modelled from the spec: `isNotFound` is defined elsewhere in the provider package;
it recognises the not-found (404) errors of the transport client. -/
def isNotFound (err : GoError) : Bool := err.notFound

/-- Severity of a diagnostic. -/
inductive Severity where
  | Error
  | Warning
deriving DecidableEq, Repr

/-- SDK `diag.Diagnostic` (the fields the handlers fill). -/
structure Diagnostic where
  Severity : Severity
  Summary : String
deriving DecidableEq, Repr

/-- SDK `diag.Diagnostics`; `nil` is the empty list. -/
abbrev Diagnostics := List Diagnostic

/-- SDK `diag.Errorf`, applied to the already formatted message. -/
def diagErrorf (msg : String) : Diagnostics :=
  [{ Severity := .Error, Summary := msg }]

/-- Some diagnostic has severity `Error`. -/
def Diagnostics.HasError (ds : Diagnostics) : Bool :=
  ds.any (fun x => x.Severity == .Error)

/-! ## Import ID resolution (`resource_runscope_step_request.go`, lines 23-74) -/

/-- Modelled from the spec: a step as listed in `runscope.Test.Steps` (the type is
declared outside the given sources); only its `Id` is read. -/
structure TestStep where
  Id : String
deriving DecidableEq, Repr

/-- Modelled from the spec: `runscope.Test`, with its ordered `Steps`. -/
structure Test where
  Id : String
  Steps : List TestStep
deriving DecidableEq, Repr

/-- Modelled from the spec: `runscope.TestGetOpts`, as filled by the importer. -/
structure TestGetOpts where
  BucketId : String
  Id : String
deriving DecidableEq, Repr

/-- Result of the importer: `([]*ResourceData{d}, nil)`, `(nil, err)`, or a run-time
panic from an out-of-range index. -/
inductive ImportResult where
  | ok (rs : List ResourceData)
  | error (msg : String)
  | panic

/-- Go slice indexing `xs[i]` with an `int` index: `none` stands for the panic. -/
def goIndex {α : Type} (xs : List α) (i : Int) : Option α :=
  if i < 0 then none else xs[i.toNat]?

/-- Message of the two format errors. -/
def importFormatMsg : String :=
  "step ID for import should be in format bucket_id/test_id/step_id " ++
    "or bucket_id/test_id#step_position"

/-- The `Importer.StateContext` function of `resourceRunscopeStepRequest`.
`testGet` is `client.Test.Get`.  The first component is `d` as the function leaves
it (it is mutated through the pointer also on the error paths). -/
def importStateContext (testGet : TestGetOpts → Except GoError Test)
    (d : ResourceData) : ResourceData × ImportResult :=
  let parts := strings.Split d.Id '/'
  match goIndex parts 0 with
  | none => (d, .panic)
  | some bucketId =>
    let d := d.Set "bucket_id" (.str bucketId)
    if parts.length = 3 then
      match goIndex parts 1, goIndex parts 2 with
      | some p1, some p2 =>
        let d := d.Set "test_id" (.str p1)
        let d := d.SetId p2
        (d, .ok [d])
      | _, _ => (d, .panic)
    else if parts.length ≠ 2 then
      (d, .error importFormatMsg)
    else
      match goIndex parts 1 with
      | none => (d, .panic)
      | some p1 =>
        let parts := strings.Split p1 '#'
        if parts.length ≠ 2 then
          (d, .error importFormatMsg)
        else
          match goIndex parts 1 with
          | none => (d, .panic)
          | some posStr =>
            match strconv.Atoi posStr with
            | .error _ => (d, .error "step_position should be a positive integer number")
            | .ok stepPos =>
              if stepPos < 1 then
                (d, .error "step_position should be a positive integer number")
              else
                match goIndex parts 0 with
                | none => (d, .panic)
                | some testId =>
                  let d := d.Set "test_id" (.str testId)
                  let opts : TestGetOpts := { BucketId := bucketId, Id := testId }
                  match testGet opts with
                  | .error err => (d, .error ("couldn't read test: " ++ err.text))
                  | .ok test =>
                    let nSteps : Int := test.Steps.length
                    if nSteps < stepPos then
                      (d, .error ("test " ++ testId ++ " contains only " ++
                        toString test.Steps.length ++ " steps"))
                    else
                      match goIndex test.Steps (stepPos - 1) with
                      | none => (d, .panic)
                      | some step =>
                        let d := d.SetId step.Id
                        (d, .ok [d])

/-- The resource data a successful import returns: `d` with the ownership attributes
and the step ID filled in. -/
def importedData (d : ResourceData) (b t s : String) : ResourceData :=
  ((d.Set "bucket_id" (.str b)).Set "test_id" (.str t)).SetId s

/-- A decimal digit character, `'0'..'9'`. -/
def isDecimalDigit (c : Char) : Prop := 48 ≤ c.toNat ∧ c.toNat ≤ 57

/-- Value of a run of decimal digits that continues the number `n`. -/
def decimalValueFrom (n : Nat) (ds : List Char) : Nat :=
  ds.foldl (fun acc c => acc * 10 + (c.toNat - 48)) n

/-- The malformed identifiers and out-of-range positions on which the importer is
specified to fail: (1) the ID does not split on `/` into 2 or 3 parts; with 2 parts
`b`, `x`: (2) `x` does not split on `#` into exactly 2 parts; with `x` split into `t`,
`ps`: (3) `ps` is not a parseable integer or is less than 1; (4) the lookup of test
`t` in bucket `b` fails; (5) the position exceeds the number of steps of the test. -/
def ImportFailure (testGet : TestGetOpts → Except GoError Test) (id : String) : Prop :=
  ((strings.Split id '/').length ≠ 2 ∧ (strings.Split id '/').length ≠ 3) ∨
  ∃ b x, strings.Split id '/' = [b, x] ∧
    ((strings.Split x '#').length ≠ 2 ∨
     ∃ t ps, strings.Split x '#' = [t, ps] ∧
      ((∃ e, strconv.Atoi ps = .error e) ∨
       ∃ n, strconv.Atoi ps = .ok n ∧
        (n < 1 ∨
         (1 ≤ n ∧ ∃ err, testGet { BucketId := b, Id := t } = .error err) ∨
         (1 ≤ n ∧ ∃ test, testGet { BucketId := b, Id := t } = .ok test ∧
            (test.Steps.length : Int) < n))))

/-! ## Environments (`internal/runscope/environment.go`) -/

/-- Go `runscope.RemoteAgent`. -/
structure RemoteAgent where
  Name : String
  UUID : String
deriving DecidableEq, Repr

/-- Go `runscope.Recipient`. -/
structure Recipient where
  Id : String
  Name : String
  Email : String
deriving DecidableEq, Repr

/-- Go `runscope.Emails`. -/
structure Emails where
  NotifyAll : Bool
  NotifyOn : String
  NotifyThreshold : Int
  Recipients : List Recipient
deriving DecidableEq, Repr

/-- Go `Emails.IsDefault`. -/
def Emails.IsDefault (e : Emails) : Bool :=
  !e.NotifyAll && e.NotifyOn == "" && e.NotifyThreshold == 0 && e.Recipients.length == 0

/-- Go `runscope.EnvironmentBase`.  The `map[string]string` of initial variables is
kept as its list of entries; the code only passes it along. -/
structure EnvironmentBase where
  Name : String
  Script : String
  PreserveCookies : Bool
  InitialVariables : List (String × String)
  Integrations : List String
  Regions : List String
  RemoteAgents : List RemoteAgent
  RetryOnFailure : Bool
  VerifySSL : Bool
  Webhooks : List String
  Emails : Emails
deriving DecidableEq, Repr

/-- Go `runscope.Environment`. -/
structure Environment extends EnvironmentBase where
  Id : String
deriving DecidableEq, Repr

namespace schema

/-- Modelled from the spec: `schema.EnvironmentIntegration` of the absent package
`internal/runscope/schema`; the mapping code reads and writes its `Id`. -/
structure EnvironmentIntegration where
  Id : String
deriving DecidableEq, Repr

/-- Modelled from the spec: `schema.RemoteAgent`, with the fields the mapping uses. -/
structure RemoteAgent where
  Name : String
  UUID : String
deriving DecidableEq, Repr

/-- Modelled from the spec: `schema.Recipient`, with the fields the mapping uses. -/
structure Recipient where
  Id : String
  Name : String
  Email : String
deriving DecidableEq, Repr

/-- Modelled from the spec: `schema.Emails`, with the fields the mapping uses. -/
structure Emails where
  NotifyAll : Bool
  NotifyOn : String
  NotifyThreshold : Int
  Recipients : List Recipient
deriving DecidableEq, Repr

/-- Modelled from the spec: `schema.EnvironmentCreateRequest`, the JSON body of a
create request, with the fields `EnvironmentClient.Create` assigns. -/
structure EnvironmentCreateRequest where
  Name : String
  Script : String
  PreserveCookies : Bool
  InitialVariables : List (String × String)
  Integrations : List EnvironmentIntegration
  Regions : List String
  RemoteAgents : List RemoteAgent
  RetryOnFailure : Bool
  VerifySSL : Bool
  Webhooks : List String
  Emails : Emails
deriving DecidableEq, Repr

/-- Modelled from the spec: `schema.EnvironmentUpdateRequest`, the JSON body of an
update request, with the fields `EnvironmentClient.Update` assigns. -/
structure EnvironmentUpdateRequest where
  Name : String
  Script : String
  PreserveCookies : Bool
  InitialVariables : List (String × String)
  Integrations : List EnvironmentIntegration
  Regions : List String
  RemoteAgents : List RemoteAgent
  RetryOnFailure : Bool
  VerifySSL : Bool
  Webhooks : List String
  Emails : Emails
deriving DecidableEq, Repr

/-- Modelled from the spec: `schema.Environment`, the environment of a response, with
the fields `EnvironmentFromSchema` reads. -/
structure Environment where
  Id : String
  Name : String
  Script : String
  PreserveCookies : Bool
  InitialVariables : List (String × String)
  Integrations : List EnvironmentIntegration
  Regions : List String
  RemoteAgents : List RemoteAgent
  RetryOnFailure : Bool
  VerifySSL : Bool
  Webhooks : List String
  Emails : Emails
deriving DecidableEq, Repr

end schema

/-- Go `for _, x := range xs { out = append(out, f x) }`, starting from `out`. -/
def appendEach {α β : Type} (f : α → β) (xs : List α) (out : List β) : List β :=
  xs.foldl (fun acc x => acc ++ [f x]) out

/-- Go `EnvironmentFromSchema`. -/
def EnvironmentFromSchema (s : schema.Environment) : Environment :=
  let emails : Emails :=
    { NotifyAll := s.Emails.NotifyAll
      NotifyOn := s.Emails.NotifyOn
      NotifyThreshold := s.Emails.NotifyThreshold
      Recipients := [] }
  let integrations := appendEach (fun (i : schema.EnvironmentIntegration) => i.Id) s.Integrations []
  let remoteAgents := appendEach
    (fun (ra : schema.RemoteAgent) => ({ Name := ra.Name, UUID := ra.UUID } : RemoteAgent))
    s.RemoteAgents []
  let recipients := appendEach
    (fun (r : schema.Recipient) => ({ Id := r.Id, Name := r.Name, Email := r.Email } : Recipient))
    s.Emails.Recipients emails.Recipients
  { Id := s.Id
    Name := s.Name
    Script := s.Script
    PreserveCookies := s.PreserveCookies
    InitialVariables := s.InitialVariables
    Integrations := integrations
    Regions := s.Regions
    RemoteAgents := remoteAgents
    RetryOnFailure := s.RetryOnFailure
    VerifySSL := s.VerifySSL
    Webhooks := s.Webhooks
    Emails := { emails with Recipients := recipients } }

/-- Go `runscope.EnvironmentUriOpts`. -/
structure EnvironmentUriOpts where
  BucketId : String
  TestId : String
deriving DecidableEq, Repr

/-- Go `EnvironmentUriOpts.BaseURL`. -/
def EnvironmentUriOpts.BaseURL (opts : EnvironmentUriOpts) : String :=
  if opts.TestId = "" then
    "/buckets/" ++ opts.BucketId ++ "/environments"
  else
    "/buckets/" ++ opts.BucketId ++ "/test/" ++ opts.TestId ++ "/environments"

/-- Go `runscope.EnvironmentCreateOpts`. -/
structure EnvironmentCreateOpts extends EnvironmentUriOpts, EnvironmentBase

/-- Go `runscope.EnvironmentGetOpts`. -/
structure EnvironmentGetOpts extends EnvironmentUriOpts where
  Id : String
deriving DecidableEq, Repr

/-- Go `EnvironmentGetOpts.URL`. -/
def EnvironmentGetOpts.URL (opts : EnvironmentGetOpts) : String :=
  opts.toEnvironmentUriOpts.BaseURL ++ "/" ++ opts.Id

/-- Go `runscope.EnvironmentUpdateOpts`. -/
structure EnvironmentUpdateOpts extends EnvironmentGetOpts, EnvironmentBase

/-- The request body `EnvironmentClient.Create` builds (lines 108-137). -/
def createRequestBody (opts : EnvironmentCreateOpts) : schema.EnvironmentCreateRequest :=
  let emails : schema.Emails :=
    { NotifyAll := opts.Emails.NotifyAll
      NotifyOn := opts.Emails.NotifyOn
      NotifyThreshold := opts.Emails.NotifyThreshold
      Recipients := [] }
  let integrations := appendEach
    (fun id => ({ Id := id } : schema.EnvironmentIntegration)) opts.Integrations []
  let remoteAgents := appendEach
    (fun (agent : RemoteAgent) => ({ Name := agent.Name, UUID := agent.UUID } : schema.RemoteAgent))
    opts.RemoteAgents []
  let recipients := appendEach
    (fun (r : Recipient) => ({ Id := r.Id, Name := r.Name, Email := r.Email } : schema.Recipient))
    opts.Emails.Recipients emails.Recipients
  { Name := opts.Name
    Script := opts.Script
    PreserveCookies := opts.PreserveCookies
    InitialVariables := opts.InitialVariables
    Integrations := integrations
    Regions := opts.Regions
    RemoteAgents := remoteAgents
    RetryOnFailure := opts.RetryOnFailure
    VerifySSL := opts.VerifySSL
    Webhooks := opts.Webhooks
    Emails := { emails with Recipients := recipients } }

/-- The request body `EnvironmentClient.Update` builds (lines 183-212). -/
def updateRequestBody (opts : EnvironmentUpdateOpts) : schema.EnvironmentUpdateRequest :=
  let emails : schema.Emails :=
    { NotifyAll := opts.Emails.NotifyAll
      NotifyOn := opts.Emails.NotifyOn
      NotifyThreshold := opts.Emails.NotifyThreshold
      Recipients := [] }
  let integrations := appendEach
    (fun id => ({ Id := id } : schema.EnvironmentIntegration)) opts.Integrations []
  let remoteAgents := appendEach
    (fun (agent : RemoteAgent) => ({ Name := agent.Name, UUID := agent.UUID } : schema.RemoteAgent))
    opts.RemoteAgents []
  let recipients := appendEach
    (fun (r : Recipient) => ({ Id := r.Id, Name := r.Name, Email := r.Email } : schema.Recipient))
    opts.Emails.Recipients emails.Recipients
  { Name := opts.Name
    Script := opts.Script
    PreserveCookies := opts.PreserveCookies
    InitialVariables := opts.InitialVariables
    Integrations := integrations
    Regions := opts.Regions
    RemoteAgents := remoteAgents
    RetryOnFailure := opts.RetryOnFailure
    VerifySSL := opts.VerifySSL
    Webhooks := opts.Webhooks
    Emails := { emails with Recipients := recipients } }

/-- The HTTP exchange behind `EnvironmentClient`: `c.client.NewRequest` followed by
`c.client.Do`, per method, giving the environment of the decoded response or the
error of either call. -/
structure EnvironmentTransport where
  post : String → schema.EnvironmentCreateRequest → Except GoError schema.Environment
  put : String → schema.EnvironmentUpdateRequest → Except GoError schema.Environment
  get : String → Except GoError schema.Environment

/-- Go `EnvironmentClient.Create`. -/
def EnvironmentClient.Create (c : EnvironmentTransport) (opts : EnvironmentCreateOpts) :
    Except GoError Environment :=
  let body := createRequestBody opts
  match c.post opts.toEnvironmentUriOpts.BaseURL body with
  | .error err => .error err
  | .ok resp => .ok (EnvironmentFromSchema resp)

/-- Go `EnvironmentClient.Get`. -/
def EnvironmentClient.Get (c : EnvironmentTransport) (opts : EnvironmentGetOpts) :
    Except GoError Environment :=
  match c.get opts.URL with
  | .error err => .error err
  | .ok resp => .ok (EnvironmentFromSchema resp)

/-- Go `EnvironmentClient.Update`. -/
def EnvironmentClient.Update (c : EnvironmentTransport) (opts : EnvironmentUpdateOpts) :
    Except GoError Environment :=
  let body := updateRequestBody opts
  match c.put opts.toEnvironmentGetOpts.URL body with
  | .error err => .error err
  | .ok resp => .ok (EnvironmentFromSchema resp)

/-- A response environment that carries exactly the fields of a create request body,
under the server-assigned `id`. -/
def schema.Environment.ofCreateRequest (id : String) (body : schema.EnvironmentCreateRequest) :
    schema.Environment :=
  { Id := id
    Name := body.Name
    Script := body.Script
    PreserveCookies := body.PreserveCookies
    InitialVariables := body.InitialVariables
    Integrations := body.Integrations
    Regions := body.Regions
    RemoteAgents := body.RemoteAgents
    RetryOnFailure := body.RetryOnFailure
    VerifySSL := body.VerifySSL
    Webhooks := body.Webhooks
    Emails := body.Emails }

/-- A response environment that carries exactly the fields of an update request body,
under the server-assigned `id`. -/
def schema.Environment.ofUpdateRequest (id : String) (body : schema.EnvironmentUpdateRequest) :
    schema.Environment :=
  { Id := id
    Name := body.Name
    Script := body.Script
    PreserveCookies := body.PreserveCookies
    InitialVariables := body.InitialVariables
    Integrations := body.Integrations
    Regions := body.Regions
    RemoteAgents := body.RemoteAgents
    RetryOnFailure := body.RetryOnFailure
    VerifySSL := body.VerifySSL
    Webhooks := body.Webhooks
    Emails := body.Emails }

/-! ## Step resources (`resource_runscope_step_request.go`, `resource_runscope_step_subtest.go`) -/

/-- Modelled from the spec: `runscope.StepUriOpts`, the owning bucket and test. -/
structure StepUriOpts where
  BucketId : String
  TestId : String
deriving DecidableEq, Repr

/-- Modelled from the spec: what the step handlers use from the provider package and
from package `runscope` but is declared outside the given sources: the types of the
nested step payloads with their zero values, the `expand*` helpers (config attribute
values to typed options, among them `expandStepUriOpts` for the owning bucket and test),
the `flatten*` helpers (typed response fields to attribute values) and `Auth.Empty`. -/
structure StepHelpers where
  Variables : Type
  Assertions : Type
  Headers : Type
  Auth : Type
  Form : Type
  zeroVariables : Variables
  zeroAssertions : Assertions
  zeroHeaders : Headers
  zeroAuth : Auth
  zeroForm : Form
  expandStepVariables : List (List (String × String)) → Variables
  expandStepAssertions : List (List (String × String)) → Assertions
  expandStepHeaders : List (List (String × String)) → Headers
  expandStepAuth : List (List (String × String)) → Auth
  expandStepForm : List (List (String × String)) → Form
  expandStringSlice : List String → List String
  expandStepUriOpts : ResourceData → StepUriOpts → StepUriOpts
  flattenStepVariables : Variables → Value
  flattenStepAssertions : Assertions → Value
  flattenStepHeaders : Headers → Value
  flattenStepAuth : Auth → Value
  flattenFormParameters : Form → Value
  authEmpty : Auth → Bool

/-- Modelled from the spec: `runscope.StepGetRequestOpts`. -/
structure StepGetRequestOpts extends StepUriOpts where
  Id : String
deriving DecidableEq, Repr

/-- Modelled from the spec: `runscope.StepRequestOpts`, with the fields
`expandStepBaseOpts` assigns. -/
structure StepRequestOpts (H : StepHelpers) where
  Method : String
  StepURL : String
  Variables : H.Variables
  Assertions : H.Assertions
  Headers : H.Headers
  Auth : H.Auth
  Body : String
  Form : H.Form
  Scripts : List String
  BeforeScripts : List String
  Note : String
  Skipped : Bool

/-- Zero value of `StepRequestOpts`. -/
def StepRequestOpts.zero (H : StepHelpers) : StepRequestOpts H :=
  { Method := "", StepURL := "", Variables := H.zeroVariables, Assertions := H.zeroAssertions,
    Headers := H.zeroHeaders, Auth := H.zeroAuth, Body := "", Form := H.zeroForm,
    Scripts := [], BeforeScripts := [], Note := "", Skipped := false }

/-- Modelled from the spec: `runscope.StepCreateRequestOpts`. -/
structure StepCreateRequestOpts (H : StepHelpers) extends StepUriOpts, StepRequestOpts H

/-- Modelled from the spec: `runscope.StepUpdateRequestOpts`. -/
structure StepUpdateRequestOpts (H : StepHelpers) extends StepGetRequestOpts, StepRequestOpts H

/-- Modelled from the spec: the request step a transport call returns, with the fields
the handlers read. -/
structure StepRequest (H : StepHelpers) extends StepRequestOpts H where
  ID : String

/-- Modelled from the spec: `runscope.StepSubtestOpts`, with the fields
`expandStepSubtestOpts` assigns. -/
structure StepSubtestOpts (H : StepHelpers) where
  BucketKey : String
  TestUUID : String
  EnvironmentUUID : String
  UseParentEnvironment : Bool
  Variables : H.Variables
  Assertions : H.Assertions

/-- Zero value of `StepSubtestOpts`. -/
def StepSubtestOpts.zero (H : StepHelpers) : StepSubtestOpts H :=
  { BucketKey := "", TestUUID := "", EnvironmentUUID := "", UseParentEnvironment := false,
    Variables := H.zeroVariables, Assertions := H.zeroAssertions }

/-- Modelled from the spec: `runscope.StepCreateSubtestOpts`. -/
structure StepCreateSubtestOpts (H : StepHelpers) extends StepUriOpts, StepSubtestOpts H

/-- Modelled from the spec: `runscope.StepUpdateSubtestOpts`. -/
structure StepUpdateSubtestOpts (H : StepHelpers) extends StepGetRequestOpts, StepSubtestOpts H

/-- Modelled from the spec: the subtest step a transport call returns, with the fields
the handlers read. -/
structure StepSubtest (H : StepHelpers) extends StepSubtestOpts H where
  ID : String

/-- The transport client `client.Step`: each method answers with a step or an error. -/
structure StepClient (H : StepHelpers) where
  CreateRequest : StepCreateRequestOpts H → Except GoError (StepRequest H)
  GetRequest : StepGetRequestOpts → Except GoError (StepRequest H)
  UpdateRequest : StepUpdateRequestOpts H → Except GoError (StepRequest H)
  CreateSubtest : StepCreateSubtestOpts H → Except GoError (StepSubtest H)
  GetSubtest : StepGetRequestOpts → Except GoError (StepSubtest H)
  UpdateSubtest : StepUpdateSubtestOpts H → Except GoError (StepSubtest H)

/-- Names of the transport calls, for the trace of a handler. -/
inductive Call where
  | CreateRequest
  | GetRequest
  | UpdateRequest
  | CreateSubtest
  | GetSubtest
  | UpdateSubtest
deriving DecidableEq, Repr

/-- What a lifecycle handler leaves behind: the resource data (mutated through the
pointer `d`), the returned diagnostics, and the transport calls it made, in order. -/
structure HandlerResult where
  d : ResourceData
  diags : Diagnostics
  calls : List Call

/-- Go `expandStepGetOpts`. -/
def expandStepGetOpts (H : StepHelpers) (d : ResourceData) (opts : StepGetRequestOpts) :
    StepGetRequestOpts :=
  let opts := { opts with Id := d.Id }
  { opts with toStepUriOpts := H.expandStepUriOpts d opts.toStepUriOpts }

/-- One `if v, ok := d.GetOk(key); ok { ... v.(string) ... }` step. -/
def okString (d : ResourceData) (key : String) (old : String) : String :=
  match d.GetOk key with
  | some (.str s) => s
  | _ => old

/-- One `if v, ok := d.GetOk(key); ok { ... v.(bool) ... }` step. -/
def okBool (d : ResourceData) (key : String) (old : Bool) : Bool :=
  match d.GetOk key with
  | some (.bool b) => b
  | _ => old

/-- One `GetOk` step on a set or list of nested blocks, passed through `expand`. -/
def okBlocks {α : Type} (d : ResourceData) (key : String)
    (expand : List (List (String × String)) → α) (old : α) : α :=
  match d.GetOk key with
  | some (.blocks l) => expand l
  | _ => old

/-- One `GetOk` step on a list of strings, passed through `expand`. -/
def okStrings (d : ResourceData) (key : String)
    (expand : List String → List String) (old : List String) : List String :=
  match d.GetOk key with
  | some (.strs l) => expand l
  | _ => old

/-- Go `expandStepBaseOpts`. -/
def expandStepBaseOpts (H : StepHelpers) (d : ResourceData) (opts : StepRequestOpts H) :
    StepRequestOpts H :=
  { Method := okString d "method" opts.Method
    StepURL := okString d "url" opts.StepURL
    Variables := okBlocks d "variable" H.expandStepVariables opts.Variables
    Assertions := okBlocks d "assertion" H.expandStepAssertions opts.Assertions
    Headers := okBlocks d "header" H.expandStepHeaders opts.Headers
    Auth := okBlocks d "auth" H.expandStepAuth opts.Auth
    Body := okString d "body" opts.Body
    Form := okBlocks d "form_parameter" H.expandStepForm opts.Form
    Scripts := okStrings d "scripts" H.expandStringSlice opts.Scripts
    BeforeScripts := okStrings d "before_scripts" H.expandStringSlice opts.BeforeScripts
    Note := okString d "note" opts.Note
    Skipped := okBool d "skipped" opts.Skipped }

/-- Go `expandStepSubtestOpts`. -/
def expandStepSubtestOpts (H : StepHelpers) (d : ResourceData) (opts : StepSubtestOpts H) :
    StepSubtestOpts H :=
  { BucketKey := okString d "source_bucket_id" opts.BucketKey
    TestUUID := okString d "source_test_id" opts.TestUUID
    EnvironmentUUID := okString d "source_environment_id" opts.EnvironmentUUID
    UseParentEnvironment := okBool d "use_parent_environment" opts.UseParentEnvironment
    Variables := okBlocks d "variable" H.expandStepVariables opts.Variables
    Assertions := okBlocks d "assertion" H.expandStepAssertions opts.Assertions }

/-- The options `resourceStepRequestRead` and `resourceStepSubtestRead` send. -/
def readOpts (d : ResourceData) : StepGetRequestOpts :=
  { Id := d.Id, TestId := d.GetString "test_id", BucketId := d.GetString "bucket_id" }

/-- Go `resourceStepRequestRead`. -/
def resourceStepRequestRead (H : StepHelpers) (client : StepClient H) (d : ResourceData) :
    HandlerResult :=
  let opts := readOpts d
  match client.GetRequest opts with
  | .error err =>
    if isNotFound err then
      { d := d.SetId "", diags := [], calls := [.GetRequest] }
    else
      { d := d, diags := diagErrorf ("Couldn't read step: " ++ err.text), calls := [.GetRequest] }
  | .ok step =>
    let d := d.Set "method" (.str step.Method)
    let d := d.Set "url" (.str step.StepURL)
    let d := d.Set "variable" (H.flattenStepVariables step.Variables)
    let d := d.Set "assertion" (H.flattenStepAssertions step.Assertions)
    let d := d.Set "header" (H.flattenStepHeaders step.Headers)
    let d := if !H.authEmpty step.Auth then d.Set "auth" (H.flattenStepAuth step.Auth) else d
    let d := d.Set "body" (.str step.Body)
    let d := d.Set "form_parameter" (H.flattenFormParameters step.Form)
    let d := d.Set "scripts" (.strs step.Scripts)
    let d := d.Set "before_scripts" (.strs step.BeforeScripts)
    let d := d.Set "note" (.str step.Note)
    let d := d.Set "skipped" (.bool step.Skipped)
    { d := d, diags := [], calls := [.GetRequest] }

/-- The options `resourceStepRequestCreate` sends. -/
def requestCreateOpts (H : StepHelpers) (d : ResourceData) : StepCreateRequestOpts H :=
  { toStepUriOpts := H.expandStepUriOpts d { BucketId := "", TestId := "" }
    toStepRequestOpts := expandStepBaseOpts H d (StepRequestOpts.zero H) }

/-- Go `resourceStepRequestCreate`. -/
def resourceStepRequestCreate (H : StepHelpers) (client : StepClient H) (d : ResourceData) :
    HandlerResult :=
  let opts := requestCreateOpts H d
  match client.CreateRequest opts with
  | .error err =>
    { d := d, diags := diagErrorf ("Couldn't create step: " ++ err.text),
      calls := [.CreateRequest] }
  | .ok step =>
    let d := d.SetId step.ID
    let r := resourceStepRequestRead H client d
    { r with calls := .CreateRequest :: r.calls }

/-- The options `resourceStepRequestUpdate` sends. -/
def requestUpdateOpts (H : StepHelpers) (d : ResourceData) : StepUpdateRequestOpts H :=
  { toStepGetRequestOpts := expandStepGetOpts H d { BucketId := "", TestId := "", Id := "" }
    toStepRequestOpts := expandStepBaseOpts H d (StepRequestOpts.zero H) }

/-- Go `resourceStepRequestUpdate`. -/
def resourceStepRequestUpdate (H : StepHelpers) (client : StepClient H) (d : ResourceData) :
    HandlerResult :=
  let opts := requestUpdateOpts H d
  match client.UpdateRequest opts with
  | .error err =>
    { d := d, diags := diagErrorf ("Couldn't create step: " ++ err.text),
      calls := [.UpdateRequest] }
  | .ok _ =>
    let r := resourceStepRequestRead H client d
    { r with calls := .UpdateRequest :: r.calls }

/-- Go `fmt` verb `%t`. -/
def fmtBool (b : Bool) : String := if b then "true" else "false"

/-- Go `resourceStepSubtestRead`. -/
def resourceStepSubtestRead (H : StepHelpers) (client : StepClient H) (d : ResourceData) :
    HandlerResult :=
  let opts := readOpts d
  match client.GetSubtest opts with
  | .error err =>
    if isNotFound err then
      { d := d.SetId "", diags := [], calls := [.GetSubtest] }
    else
      let is := err.asRunscopeError
      { d := d
        diags := diagErrorf ("couldn't (is=" ++ fmtBool is ++ ") read step: " ++ err.text)
        calls := [.GetSubtest] }
  | .ok step =>
    let d := d.Set "source_bucket_id" (.str step.BucketKey)
    let d := d.Set "source_test_id" (.str step.TestUUID)
    let d := d.Set "source_environment_id" (.str step.EnvironmentUUID)
    let d := d.Set "use_parent_environment" (.bool step.UseParentEnvironment)
    let d := d.Set "variable" (H.flattenStepVariables step.Variables)
    let d := d.Set "assertion" (H.flattenStepAssertions step.Assertions)
    { d := d, diags := [], calls := [.GetSubtest] }

/-- The options `resourceStepSubtestCreate` sends. -/
def subtestCreateOpts (H : StepHelpers) (d : ResourceData) : StepCreateSubtestOpts H :=
  { toStepUriOpts := H.expandStepUriOpts d { BucketId := "", TestId := "" }
    toStepSubtestOpts := expandStepSubtestOpts H d (StepSubtestOpts.zero H) }

/-- Go `resourceStepSubtestCreate`. -/
def resourceStepSubtestCreate (H : StepHelpers) (client : StepClient H) (d : ResourceData) :
    HandlerResult :=
  let opts := subtestCreateOpts H d
  match client.CreateSubtest opts with
  | .error err =>
    if isNotFound err then
      { d := d.SetId "", diags := [], calls := [.CreateSubtest] }
    else
      { d := d, diags := diagErrorf ("couldn't read step: " ++ err.text),
        calls := [.CreateSubtest] }
  | .ok step =>
    let d := d.SetId step.ID
    let r := resourceStepSubtestRead H client d
    { r with calls := .CreateSubtest :: r.calls }

/-- The options `resourceStepSubtestUpdate` sends. -/
def subtestUpdateOpts (H : StepHelpers) (d : ResourceData) : StepUpdateSubtestOpts H :=
  { toStepGetRequestOpts := expandStepGetOpts H d { BucketId := "", TestId := "", Id := "" }
    toStepSubtestOpts := expandStepSubtestOpts H d (StepSubtestOpts.zero H) }

/-- Go `resourceStepSubtestUpdate`. -/
def resourceStepSubtestUpdate (H : StepHelpers) (client : StepClient H) (d : ResourceData) :
    HandlerResult :=
  let opts := subtestUpdateOpts H d
  match client.UpdateSubtest opts with
  | .error err =>
    { d := d, diags := diagErrorf ("Couldn't create step: " ++ err.text),
      calls := [.UpdateSubtest] }
  | .ok _ =>
    let r := resourceStepSubtestRead H client d
    { r with calls := .UpdateSubtest :: r.calls }

/-! ## Concrete instances used in the examples -/

/-- Resource data with the given ID and no attribute set. -/
def exampleData (id : String) : ResourceData :=
  { id := id, attrs := fun _ => none }

/-- A test lookup that finds, for every bucket and test, a test with the three steps
`s1`, `s2`, `s3`. -/
def exampleTestGet : TestGetOpts → Except GoError Test :=
  fun opts => .ok { Id := opts.Id, Steps := [{ Id := "s1" }, { Id := "s2" }, { Id := "s3" }] }

/-- Helpers in which every nested payload is its list of blocks. -/
def exampleHelpers : StepHelpers :=
  { Variables := List (List (String × String))
    Assertions := List (List (String × String))
    Headers := List (List (String × String))
    Auth := List (List (String × String))
    Form := List (List (String × String))
    zeroVariables := []
    zeroAssertions := []
    zeroHeaders := []
    zeroAuth := []
    zeroForm := []
    expandStepVariables := fun l => l
    expandStepAssertions := fun l => l
    expandStepHeaders := fun l => l
    expandStepAuth := fun l => l
    expandStepForm := fun l => l
    expandStringSlice := fun l => l
    expandStepUriOpts := fun d _ =>
      { BucketId := d.GetString "bucket_id", TestId := d.GetString "test_id" }
    flattenStepVariables := Value.blocks
    flattenStepAssertions := Value.blocks
    flattenStepHeaders := Value.blocks
    flattenStepAuth := Value.blocks
    flattenFormParameters := Value.blocks
    authEmpty := List.isEmpty }

/-- A not-found (404) error of the transport client. -/
def exampleNotFound : GoError :=
  { text := "404 Not Found", notFound := true, asRunscopeError := true }

/-- An error of the transport client that is not a not-found error. -/
def exampleServerError : GoError :=
  { text := "500 Internal Server Error", notFound := false, asRunscopeError := true }

/-- The request step with the given ID and zero-valued fields. -/
def exampleStepRequest (id : String) : StepRequest exampleHelpers :=
  { toStepRequestOpts := StepRequestOpts.zero exampleHelpers, ID := id }

/-- The subtest step with the given ID and zero-valued fields. -/
def exampleStepSubtest (id : String) : StepSubtest exampleHelpers :=
  { toStepSubtestOpts := StepSubtestOpts.zero exampleHelpers, ID := id }

/-- A transport client whose every call answers with the given request-step and
subtest-step results. -/
def exampleClient (create get update : Except GoError (StepRequest exampleHelpers))
    (createSub getSub updateSub : Except GoError (StepSubtest exampleHelpers)) :
    StepClient exampleHelpers :=
  { CreateRequest := fun _ => create
    GetRequest := fun _ => get
    UpdateRequest := fun _ => update
    CreateSubtest := fun _ => createSub
    GetSubtest := fun _ => getSub
    UpdateSubtest := fun _ => updateSub }

/-- A server that accepts every create and update, answering with step `s1`, and
answers every step lookup with not-found. -/
def exampleClientLostStep : StepClient exampleHelpers :=
  exampleClient (.ok (exampleStepRequest "s1")) (.error exampleNotFound)
    (.ok (exampleStepRequest "s1")) (.ok (exampleStepSubtest "s1")) (.error exampleNotFound)
    (.ok (exampleStepSubtest "s1"))

/-- A server that answers every call with not-found. -/
def exampleClientNotFound : StepClient exampleHelpers :=
  exampleClient (.error exampleNotFound) (.error exampleNotFound) (.error exampleNotFound)
    (.error exampleNotFound) (.error exampleNotFound) (.error exampleNotFound)

/-- A server that answers every call with a server error. -/
def exampleClientServerError : StepClient exampleHelpers :=
  exampleClient (.error exampleServerError) (.error exampleServerError)
    (.error exampleServerError) (.error exampleServerError) (.error exampleServerError)
    (.error exampleServerError)

/-- A server that answers every call with step `s1`. -/
def exampleClientOk : StepClient exampleHelpers :=
  exampleClient (.ok (exampleStepRequest "s1")) (.ok (exampleStepRequest "s1"))
    (.ok (exampleStepRequest "s1")) (.ok (exampleStepSubtest "s1"))
    (.ok (exampleStepSubtest "s1")) (.ok (exampleStepSubtest "s1"))

/-- An environment configuration with every list populated. -/
def exampleEnvironmentBase : EnvironmentBase :=
  { Name := "staging"
    Script := "log(1)"
    PreserveCookies := true
    InitialVariables := [("host", "example.org")]
    Integrations := ["i1", "i2"]
    Regions := ["us1"]
    RemoteAgents := [{ Name := "agent", UUID := "u1" }]
    RetryOnFailure := false
    VerifySSL := true
    Webhooks := ["https://example.org/hook"]
    Emails :=
      { NotifyAll := true
        NotifyOn := "all"
        NotifyThreshold := 2
        Recipients := [{ Id := "r1", Name := "Ann", Email := "ann@example.org" }] } }

/-- A transport that echoes the body of every create and update request back as the
environment `e1` and finds nothing else. -/
def exampleEchoTransport : EnvironmentTransport :=
  { post := fun _ body => .ok (schema.Environment.ofCreateRequest "e1" body)
    put := fun _ body => .ok (schema.Environment.ofUpdateRequest "e1" body)
    get := fun _ => .error exampleNotFound }

/-- A subtest-step configuration: source bucket and test set, source environment
unset, `use_parent_environment` true. -/
def exampleSubtestConfig : ResourceData :=
  { id := "s1"
    attrs := fun k =>
      if k = "source_bucket_id" then some (.str "b2")
      else if k = "source_test_id" then some (.str "t2")
      else if k = "use_parent_environment" then some (.bool true)
      else none }

/-- A server whose subtest lookup answers with the step that `exampleSubtestConfig`
expands to. -/
def exampleSubtestClient : StepClient exampleHelpers :=
  exampleClient (.error exampleNotFound) (.error exampleNotFound) (.error exampleNotFound)
    (.error exampleNotFound)
    (.ok { BucketKey := "b2", TestUUID := "t2", EnvironmentUUID := "",
           UseParentEnvironment := true, Variables := [], Assertions := [], ID := "s1" })
    (.error exampleNotFound)

/-- The state of the present request step `s1` with an `auth` block recorded. -/
def exampleAuthState : ResourceData :=
  { id := "s1"
    attrs := fun k =>
      if k = "bucket_id" then some (.str "b1")
      else if k = "test_id" then some (.str "t1")
      else if k = "auth" then
        some (.blocks [[("username", "u"), ("auth_type", "basic"), ("password", "p")]])
      else none }

/-- A server that knows the step `s1` only: create and update answer with `s1`, a
lookup answers with `s1` for that ID and with not-found for every other ID. -/
def exampleClientKnowsS1 : StepClient exampleHelpers :=
  { CreateRequest := fun _ => .ok (exampleStepRequest "s1")
    GetRequest := fun opts =>
      if opts.Id = "s1" then .ok (exampleStepRequest "s1") else .error exampleNotFound
    UpdateRequest := fun _ => .ok (exampleStepRequest "s1")
    CreateSubtest := fun _ => .ok (exampleStepSubtest "s1")
    GetSubtest := fun opts =>
      if opts.Id = "s1" then .ok (exampleStepSubtest "s1") else .error exampleNotFound
    UpdateSubtest := fun _ => .ok (exampleStepSubtest "s1") }

/-! ## Facts about the library models -/

theorem strings.splitChars_ne_nil (sep : Char) (l : List Char) :
    strings.splitChars sep l ≠ [] := by
  induction l with
  | nil => simp [strings.splitChars]
  | cons c cs ih =>
    unfold strings.splitChars
    split
    · simp
    · split <;> simp

theorem strings.splitChars_of_not_mem (sep : Char) (l : List Char) (h : sep ∉ l) :
    strings.splitChars sep l = [l] := by
  induction l with
  | nil => rfl
  | cons c cs ih =>
    have hc : c ≠ sep := fun e => h (by simp [e])
    have hcs : sep ∉ cs := fun e => h (by simp [e])
    simp [strings.splitChars, hc, ih hcs]

theorem strings.splitChars_append_sep (sep : Char) (a r : List Char) (h : sep ∉ a) :
    strings.splitChars sep (a ++ sep :: r) = a :: strings.splitChars sep r := by
  induction a with
  | nil => simp [strings.splitChars]
  | cons c cs ih =>
    have hc : c ≠ sep := fun e => h (by simp [e])
    have hcs : sep ∉ cs := fun e => h (by simp [e])
    simp [strings.splitChars, hc, ih hcs]

theorem strings.Split_ne_nil (s : String) (sep : Char) : strings.Split s sep ≠ [] := by
  simp [strings.Split, strings.splitChars_ne_nil]

theorem strings.Split_pair (s : String) (sep : Char) (a r : List Char)
    (hs : s.data = a ++ sep :: r) (ha : sep ∉ a) (hr : sep ∉ r) :
    strings.Split s sep = [String.mk a, String.mk r] := by
  simp [strings.Split, hs, strings.splitChars_append_sep sep a r ha,
    strings.splitChars_of_not_mem sep r hr]

theorem strings.Split_triple (s : String) (sep : Char) (a m r : List Char)
    (hs : s.data = a ++ sep :: (m ++ sep :: r)) (ha : sep ∉ a) (hm : sep ∉ m)
    (hr : sep ∉ r) :
    strings.Split s sep = [String.mk a, String.mk m, String.mk r] := by
  simp [strings.Split, hs, strings.splitChars_append_sep sep a _ ha,
    strings.splitChars_append_sep sep m r hm, strings.splitChars_of_not_mem sep r hr]

theorem decimalValueFrom_ge (ds : List Char) (n : Nat) : n ≤ decimalValueFrom n ds := by
  induction ds generalizing n with
  | nil => simp [decimalValueFrom]
  | cons c cs ih =>
    have := ih (n * 10 + (c.toNat - 48))
    simp only [decimalValueFrom, List.foldl_cons] at this ⊢
    omega

theorem strconv.parseUintLoop_digits (ds : List Char) (n : Nat)
    (hd : ∀ c ∈ ds, isDecimalDigit c) (hv : decimalValueFrom n ds < 2 ^ 64) :
    strconv.parseUintLoop ds n = .ok (decimalValueFrom n ds) := by
  induction ds generalizing n with
  | nil => rfl
  | cons c cs ih =>
    have hc : isDecimalDigit c := hd c (by simp)
    have hcs : ∀ x ∈ cs, isDecimalDigit x := fun x hx => hd x (by simp [hx])
    have hstep : decimalValueFrom n (c :: cs) =
        decimalValueFrom (n * 10 + (c.toNat - 48)) cs := rfl
    rw [hstep] at hv ⊢
    have hge := decimalValueFrom_ge cs (n * 10 + (c.toNat - 48))
    have hdig : strconv.digitOf c = some (c.toNat - 48) := by
      unfold isDecimalDigit at hc
      simp [strconv.digitOf, hc]
    unfold isDecimalDigit at hc
    have h1 : ¬ (c.toNat - 48 ≥ 10) := by omega
    have h2 : ¬ (n ≥ strconv.maxUint64 / 10 + 1) := by
      simp only [strconv.maxUint64]; omega
    have h3 : (n * 10 + (c.toNat - 48)) % 2 ^ 64 = n * 10 + (c.toNat - 48) :=
      Nat.mod_eq_of_lt (by omega)
    have h4 : ¬ (n * 10 + (c.toNat - 48) < n * 10 ∨
        n * 10 + (c.toNat - 48) > strconv.maxUint64) := by
      simp only [strconv.maxUint64]; omega
    rw [strconv.parseUintLoop, hdig]
    simp only [h1, h2, h3, h4, if_false]
    exact ih _ hcs hv

theorem strconv.Atoi_decimal (s : String) (hne : s.data ≠ [])
    (hd : ∀ c ∈ s.data, isDecimalDigit c) (hv : decimalValueFrom 0 s.data < 2 ^ 63) :
    strconv.Atoi s = .ok ((decimalValueFrom 0 s.data : Nat) : Int) := by
  unfold strconv.Atoi strconv.ParseInt
  match hs : s.data with
  | [] => exact absurd hs hne
  | c :: cs =>
    have hc : isDecimalDigit c := hd c (by simp [hs])
    unfold isDecimalDigit at hc
    have h1 : c ≠ '+' := by
      intro e; rw [e] at hc; revert hc; decide
    have h2 : c ≠ '-' := by
      intro e; rw [e] at hc; revert hc; decide
    have hloop := strconv.parseUintLoop_digits (c :: cs) 0 (by rw [← hs]; exact hd)
      (by rw [← hs]; omega)
    have hv' : ¬ (decimalValueFrom 0 (c :: cs) ≥ 2 ^ (strconv.IntSize - 1)) := by
      rw [← hs]; simp only [strconv.IntSize]; omega
    simp only [h1, h2, or_self, if_false, strconv.ParseUint, hloop, decide_False,
      Bool.false_eq_true, false_and, not_false_eq_true, true_and, hv']

theorem digitChar_isDecimalDigit (m : Nat) (hm : m < 10) :
    isDecimalDigit (Nat.digitChar m) ∧ (Nat.digitChar m).toNat - 48 = m := by
  unfold isDecimalDigit
  interval_cases m <;> decide

theorem decimalValueFrom_snoc (n : Nat) (ds : List Char) (c : Char) :
    decimalValueFrom n (ds ++ [c]) = decimalValueFrom n ds * 10 + (c.toNat - 48) := by
  simp [decimalValueFrom, List.foldl_append]

/-- The accumulator of `Nat.toDigitsCore` is carried through untouched. -/
theorem toDigitsCore_acc (fuel : Nat) (n : Nat) (acc : List Char) :
    Nat.toDigitsCore 10 fuel n acc = Nat.toDigitsCore 10 fuel n [] ++ acc := by
  induction fuel generalizing n acc with
  | zero => simp [Nat.toDigitsCore]
  | succ k ih =>
    unfold Nat.toDigitsCore
    by_cases hq : n / 10 = 0
    · simp [hq]
    · simp only [hq, if_false]
      rw [ih (n / 10) (Nat.digitChar (n % 10) :: acc), ih (n / 10) [Nat.digitChar (n % 10)]]
      simp

theorem toDigitsCore_small (k n : Nat) (hq : n / 10 = 0) :
    Nat.toDigitsCore 10 (k + 1) n [] = [Nat.digitChar (n % 10)] := by
  simp [Nat.toDigitsCore, hq]

theorem toDigitsCore_large (k n : Nat) (hq : n / 10 ≠ 0) :
    Nat.toDigitsCore 10 (k + 1) n [] =
      Nat.toDigitsCore 10 k (n / 10) [] ++ [Nat.digitChar (n % 10)] := by
  rw [← toDigitsCore_acc]
  simp [Nat.toDigitsCore, hq]

theorem toDigitsCore_digits (fuel n : Nat) :
    ∀ c ∈ Nat.toDigitsCore 10 fuel n [], isDecimalDigit c := by
  induction fuel generalizing n with
  | zero => simp [Nat.toDigitsCore]
  | succ k ih =>
    have hlast := (digitChar_isDecimalDigit (n % 10) (Nat.mod_lt n (by decide))).1
    intro c hc
    by_cases hq : n / 10 = 0
    · rw [toDigitsCore_small k n hq, List.mem_singleton] at hc
      exact hc ▸ hlast
    · rw [toDigitsCore_large k n hq, List.mem_append, List.mem_singleton] at hc
      exact hc.elim (ih (n / 10) c) (fun e => e ▸ hlast)

theorem toDigitsCore_value (fuel n : Nat) (hfuel : n < fuel) :
    decimalValueFrom 0 (Nat.toDigitsCore 10 fuel n []) = n := by
  induction fuel generalizing n with
  | zero => omega
  | succ k ih =>
    have hlast := (digitChar_isDecimalDigit (n % 10) (Nat.mod_lt n (by decide))).2
    by_cases hq : n / 10 = 0
    · rw [toDigitsCore_small k n hq]
      simp only [decimalValueFrom, List.foldl_cons, List.foldl_nil, hlast]
      omega
    · rw [toDigitsCore_large k n hq, decimalValueFrom_snoc, ih (n / 10) (by omega), hlast]
      omega

theorem toDigitsCore_ne_nil (k n : Nat) : Nat.toDigitsCore 10 (k + 1) n [] ≠ [] := by
  by_cases hq : n / 10 = 0
  · simp [toDigitsCore_small k n hq]
  · simp [toDigitsCore_large k n hq]

/-- The decimal rendering of a natural number is a non-empty run of decimal digits
whose value is that number. -/
theorem toString_decimal (n : Nat) :
    (toString n).data ≠ [] ∧ (∀ c ∈ (toString n).data, isDecimalDigit c) ∧
      decimalValueFrom 0 (toString n).data = n := by
  have h : (toString n).data = Nat.toDigitsCore 10 (n + 1) n [] := rfl
  rw [h]
  exact ⟨toDigitsCore_ne_nil n n, toDigitsCore_digits (n + 1) n,
    toDigitsCore_value (n + 1) n (Nat.lt_succ_self n)⟩

theorem isDecimalDigit_ne_sep (c : Char) (h : isDecimalDigit c) : c ≠ '/' ∧ c ≠ '#' := by
  unfold isDecimalDigit at h
  constructor <;> (intro e; rw [e] at h; revert h; decide)

/-! ## The importer, case by case -/

theorem goIndex_zero {α : Type} (x : α) (xs : List α) : goIndex (x :: xs) 0 = some x := by
  simp [goIndex]

theorem goIndex_one {α : Type} (x y : α) (xs : List α) :
    goIndex (x :: y :: xs) 1 = some y := by
  simp [goIndex]

theorem goIndex_two {α : Type} (x y z : α) (xs : List α) :
    goIndex (x :: y :: z :: xs) 2 = some z := by
  simp [goIndex]

theorem import_explicit (testGet : TestGetOpts → Except GoError Test) (d : ResourceData)
    (b t s : String) (h : strings.Split d.Id '/' = [b, t, s]) :
    importStateContext testGet d = (importedData d b t s, .ok [importedData d b t s]) := by
  simp [importStateContext, h, goIndex_zero, goIndex_one, goIndex_two, importedData]

theorem import_bad_count (testGet : TestGetOpts → Except GoError Test) (d : ResourceData)
    (h2 : (strings.Split d.Id '/').length ≠ 2) (h3 : (strings.Split d.Id '/').length ≠ 3) :
    (importStateContext testGet d).2 = .error importFormatMsg := by
  match hp : strings.Split d.Id '/' with
  | [] => exact absurd hp (strings.Split_ne_nil _ _)
  | x :: xs =>
    rw [hp] at h2 h3
    simp only [List.length_cons] at h2 h3
    have h2' : ¬ xs.length = 1 := by omega
    have h3' : ¬ xs.length = 2 := by omega
    simp [importStateContext, hp, goIndex_zero, h2', h3']

theorem import_bad_hash (testGet : TestGetOpts → Except GoError Test) (d : ResourceData)
    (b x : String) (h : strings.Split d.Id '/' = [b, x])
    (hx : (strings.Split x '#').length ≠ 2) :
    (importStateContext testGet d).2 = .error importFormatMsg := by
  simp [importStateContext, h, goIndex_zero, goIndex_one, hx]

theorem import_bad_number (testGet : TestGetOpts → Except GoError Test) (d : ResourceData)
    (b x t ps : String) (h : strings.Split d.Id '/' = [b, x])
    (hx : strings.Split x '#' = [t, ps]) (e : strconv.NumError)
    (hn : strconv.Atoi ps = .error e) :
    (importStateContext testGet d).2 =
      .error "step_position should be a positive integer number" := by
  simp [importStateContext, h, goIndex_zero, goIndex_one, hx, hn]

theorem import_low_position (testGet : TestGetOpts → Except GoError Test) (d : ResourceData)
    (b x t ps : String) (h : strings.Split d.Id '/' = [b, x])
    (hx : strings.Split x '#' = [t, ps]) (n : Int)
    (hn : strconv.Atoi ps = .ok n) (hlow : n < 1) :
    (importStateContext testGet d).2 =
      .error "step_position should be a positive integer number" := by
  simp [importStateContext, h, goIndex_zero, goIndex_one, hx, hn, hlow]

theorem import_lookup_error (testGet : TestGetOpts → Except GoError Test) (d : ResourceData)
    (b x t ps : String) (h : strings.Split d.Id '/' = [b, x])
    (hx : strings.Split x '#' = [t, ps]) (n : Int)
    (hn : strconv.Atoi ps = .ok n) (hpos : 1 ≤ n) (err : GoError)
    (hget : testGet { BucketId := b, Id := t } = .error err) :
    (importStateContext testGet d).2 = .error ("couldn't read test: " ++ err.text) := by
  have hlow : ¬ n < 1 := by omega
  simp [importStateContext, h, goIndex_zero, goIndex_one, hx, hn, hlow, hget]

theorem import_out_of_range (testGet : TestGetOpts → Except GoError Test) (d : ResourceData)
    (b x t ps : String) (h : strings.Split d.Id '/' = [b, x])
    (hx : strings.Split x '#' = [t, ps]) (n : Int)
    (hn : strconv.Atoi ps = .ok n) (hpos : 1 ≤ n) (test : Test)
    (hget : testGet { BucketId := b, Id := t } = .ok test)
    (hbig : (test.Steps.length : Int) < n) :
    (importStateContext testGet d).2 =
      .error ("test " ++ t ++ " contains only " ++ toString test.Steps.length ++ " steps") := by
  have hlow : ¬ n < 1 := by omega
  simp [importStateContext, h, goIndex_zero, goIndex_one, hx, hn, hlow, hget, hbig]

theorem import_position (testGet : TestGetOpts → Except GoError Test) (d : ResourceData)
    (b x t ps : String) (h : strings.Split d.Id '/' = [b, x])
    (hx : strings.Split x '#' = [t, ps]) (n : Int)
    (hn : strconv.Atoi ps = .ok n) (hpos : 1 ≤ n) (test : Test)
    (hget : testGet { BucketId := b, Id := t } = .ok test)
    (hin : n ≤ (test.Steps.length : Int)) :
    ∃ step, test.Steps[(n - 1).toNat]? = some step ∧
      importStateContext testGet d =
        (importedData d b t step.Id, .ok [importedData d b t step.Id]) := by
  have hlow : ¬ n < 1 := by omega
  have hbig : ¬ (test.Steps.length : Int) < n := by omega
  have hlt : (n - 1).toNat < test.Steps.length := by omega
  refine ⟨test.Steps[(n - 1).toNat], List.getElem?_eq_getElem hlt, ?_⟩
  have hidx : goIndex test.Steps (n - 1) = some test.Steps[(n - 1).toNat] := by
    have : ¬ (n - 1 < 0) := by omega
    simp [goIndex, this, List.getElem?_eq_getElem hlt]
  simp [importStateContext, h, goIndex_zero, goIndex_one, hx, hn, hlow, hget, hbig, hidx,
    importedData]

/-- The positional import, with the returned resource data spelled out. -/
theorem import_positional_result (testGet : TestGetOpts → Except GoError Test)
    (d : ResourceData) (b t : String) (test : Test) (p : Nat)
    (hb : '/' ∉ b.data) (ht : '/' ∉ t.data) (ht' : '#' ∉ t.data)
    (hid : d.Id = b ++ "/" ++ t ++ "#" ++ toString p)
    (hget : testGet { BucketId := b, Id := t } = .ok test)
    (hp1 : 1 ≤ p) (hp2 : p ≤ test.Steps.length) (hlen : test.Steps.length < 2 ^ 63) :
    ∃ step, test.Steps[p - 1]? = some step ∧
      importStateContext testGet d =
        (importedData d b t step.Id, .ok [importedData d b t step.Id]) := by
  obtain ⟨hne, hdig, hval⟩ := toString_decimal p
  have hdata : d.Id.data = b.data ++ '/' :: (t.data ++ '#' :: (toString p).data) := by
    rw [hid]; simp [String.data_append]
  have hslash : '/' ∉ t.data ++ '#' :: (toString p).data := by
    intro hmem
    rw [List.mem_append, List.mem_cons] at hmem
    rcases hmem with hmem | hmem | hmem
    · exact ht hmem
    · revert hmem; decide
    · exact (isDecimalDigit_ne_sep _ (hdig _ hmem)).1 rfl
  have hhash : '#' ∉ (toString p).data := fun hmem =>
    (isDecimalDigit_ne_sep _ (hdig _ hmem)).2 rfl
  have h1 := strings.Split_pair d.Id '/' b.data _ hdata hb hslash
  have h2 := strings.Split_pair (String.mk (t.data ++ '#' :: (toString p).data)) '#'
    t.data (toString p).data rfl ht' hhash
  have h3 := strconv.Atoi_decimal (toString p) hne hdig (by omega)
  rw [hval] at h3
  obtain ⟨step, hstep, hres⟩ := import_position testGet d b _ t _ h1 h2 (p : Int) h3
    (by omega) test hget (by omega)
  have hidx : ((p : Int) - 1).toNat = p - 1 := by omega
  rw [hidx] at hstep
  exact ⟨step, hstep, hres⟩

theorem importedData_fields (d : ResourceData) (b t s : String) :
    (importedData d b t s).Id = s ∧ (importedData d b t s).GetString "bucket_id" = b ∧
      (importedData d b t s).GetString "test_id" = t := by
  simp [importedData, ResourceData.GetString, ResourceData.Set, ResourceData.SetId,
    ResourceData.Id]

/-- The explicit import `b/t/s`, with the returned resource data spelled out. -/
theorem import_explicit_result (testGet : TestGetOpts → Except GoError Test)
    (d : ResourceData) (b t s : String)
    (hb : '/' ∉ b.data) (ht : '/' ∉ t.data) (hs : '/' ∉ s.data)
    (hid : d.Id = b ++ "/" ++ t ++ "/" ++ s) :
    importStateContext testGet d = (importedData d b t s, .ok [importedData d b t s]) := by
  have hdata : d.Id.data = b.data ++ '/' :: (t.data ++ '/' :: s.data) := by
    rw [hid]; simp [String.data_append]
  exact import_explicit testGet d b t s
    (strings.Split_triple d.Id '/' b.data t.data s.data hdata hb ht hs)

/-! ## Import ID resolution: the claims -/

/-- C1: importing the positional ID `b/t#p`, with `p` written in decimal and
`1 ≤ p ≤ len(Steps)`, succeeds and returns exactly one resource whose ID is the ID of
the `p`-th step (1-based) of the test found for `(b, t)`, with `bucket_id = b` and
`test_id = t`.  (`len(Steps)` is a Go `int`, so it is below `2 ^ 63`.) -/
theorem import_by_position (testGet : TestGetOpts → Except GoError Test) (d : ResourceData)
    (b t : String) (test : Test) (p : Nat)
    (hb : '/' ∉ b.data) (ht : '/' ∉ t.data) (ht' : '#' ∉ t.data)
    (hid : d.Id = b ++ "/" ++ t ++ "#" ++ toString p)
    (hget : testGet { BucketId := b, Id := t } = .ok test)
    (hp1 : 1 ≤ p) (hp2 : p ≤ test.Steps.length) (hlen : test.Steps.length < 2 ^ 63) :
    ∃ step r, test.Steps[p - 1]? = some step ∧
      importStateContext testGet d = (r, .ok [r]) ∧
      r.Id = step.Id ∧ r.GetString "bucket_id" = b ∧ r.GetString "test_id" = t := by
  obtain ⟨step, hstep, hres⟩ :=
    import_positional_result testGet d b t test p hb ht ht' hid hget hp1 hp2 hlen
  obtain ⟨f1, f2, f3⟩ := importedData_fields d b t step.Id
  exact ⟨step, importedData d b t step.Id, hstep, hres, f1, f2, f3⟩

/-- Importing `b1/t1#2` resolves to the ID of the second of the three steps. -/
theorem import_by_position_witness :
    ∃ r, importStateContext exampleTestGet (exampleData "b1/t1#2") = (r, .ok [r]) ∧
      r.Id = "s2" ∧ r.GetString "bucket_id" = "b1" ∧ r.GetString "test_id" = "t1" := by
  obtain ⟨step, r, hstep, hres, h1, h2, h3⟩ :=
    import_by_position exampleTestGet (exampleData "b1/t1#2") "b1" "t1"
      { Id := "t1", Steps := [{ Id := "s1" }, { Id := "s2" }, { Id := "s3" }] } 2
      (by decide) (by decide) (by decide) (by decide) rfl (by decide) (by decide)
      (by simp)
  have hs : step = { Id := "s2" } := by
    simp at hstep
    exact hstep.symm
  subst hs
  exact ⟨r, hres, h1, h2, h3⟩

/-- C2: the two import forms agree.  For valid IDs (bucket, test and step ID without
`/`, test ID without `#`) and a position `p` with `1 ≤ p ≤ len(Steps)`, importing the
explicit ID `b/t/s` with `s = Steps[p-1].Id` and importing the positional ID `b/t#p`
both succeed with one resource, and the two resources carry the same
`(bucket_id, test_id, ID)` tuple, namely `(b, t, s)`. -/
theorem import_forms_agree (testGet : TestGetOpts → Except GoError Test)
    (dE dP : ResourceData) (b t : String) (test : Test) (p : Nat) (step : TestStep)
    (hb : '/' ∉ b.data) (ht : '/' ∉ t.data) (ht' : '#' ∉ t.data)
    (hget : testGet { BucketId := b, Id := t } = .ok test)
    (hp1 : 1 ≤ p) (hp2 : p ≤ test.Steps.length) (hlen : test.Steps.length < 2 ^ 63)
    (hstep : test.Steps[p - 1]? = some step) (hs : '/' ∉ step.Id.data)
    (hE : dE.Id = b ++ "/" ++ t ++ "/" ++ step.Id)
    (hP : dP.Id = b ++ "/" ++ t ++ "#" ++ toString p) :
    ∃ rE rP, (importStateContext testGet dE).2 = .ok [rE] ∧
      (importStateContext testGet dP).2 = .ok [rP] ∧
      (rE.GetString "bucket_id", rE.GetString "test_id", rE.Id) =
        (rP.GetString "bucket_id", rP.GetString "test_id", rP.Id) ∧
      (rP.GetString "bucket_id", rP.GetString "test_id", rP.Id) = (b, t, step.Id) := by
  obtain ⟨step', hstep', hres⟩ :=
    import_positional_result testGet dP b t test p hb ht ht' hP hget hp1 hp2 hlen
  have hsame : step' = step := by
    rw [hstep] at hstep'
    exact (Option.some.inj hstep').symm
  subst hsame
  have hexp := import_explicit_result testGet dE b t step'.Id hb ht hs hE
  obtain ⟨e1, e2, e3⟩ := importedData_fields dE b t step'.Id
  obtain ⟨p1, p2, p3⟩ := importedData_fields dP b t step'.Id
  refine ⟨importedData dE b t step'.Id, importedData dP b t step'.Id, ?_, ?_, ?_, ?_⟩
  · rw [hexp]
  · rw [hres]
  · rw [e1, e2, e3, p1, p2, p3]
  · rw [p1, p2, p3]

theorem import_forms_agree_witness :
    ∃ rE rP, (importStateContext exampleTestGet (exampleData "b1/t1/s2")).2 = .ok [rE] ∧
      (importStateContext exampleTestGet (exampleData "b1/t1#2")).2 = .ok [rP] ∧
      (rE.GetString "bucket_id", rE.GetString "test_id", rE.Id) =
        (rP.GetString "bucket_id", rP.GetString "test_id", rP.Id) ∧
      (rP.GetString "bucket_id", rP.GetString "test_id", rP.Id) = ("b1", "t1", "s2") :=
  import_forms_agree exampleTestGet (exampleData "b1/t1/s2") (exampleData "b1/t1#2")
    "b1" "t1" { Id := "t1", Steps := [{ Id := "s1" }, { Id := "s2" }, { Id := "s3" }] } 2
    { Id := "s2" } (by decide) (by decide) (by decide) rfl (by decide) (by decide)
    (by simp) rfl (by decide) (by decide) (by decide)

/-- C3: the importer fails with an error, returning no resource data, on every
malformed identifier or out-of-range position (`ImportFailure`: wrong number of
`/`-parts, wrong number of `#`-parts, position not an integer or below 1, failed test
lookup, position beyond the steps of the test), and in every other case it succeeds
with one resource.  When the position exceeds the number of steps, the error names the
test id and its step count. -/
theorem import_fails_exactly_on_malformed (testGet : TestGetOpts → Except GoError Test)
    (d : ResourceData) :
    (ImportFailure testGet d.Id → ∃ msg, (importStateContext testGet d).2 = .error msg) ∧
    (¬ ImportFailure testGet d.Id → ∃ r, (importStateContext testGet d).2 = .ok [r]) ∧
    (∀ b x t ps n test, strings.Split d.Id '/' = [b, x] → strings.Split x '#' = [t, ps] →
      strconv.Atoi ps = .ok n → 1 ≤ n → testGet { BucketId := b, Id := t } = .ok test →
      (test.Steps.length : Int) < n →
      (importStateContext testGet d).2 =
        .error ("test " ++ t ++ " contains only " ++ toString test.Steps.length ++ " steps")) := by
  refine ⟨?_, ?_, ?_⟩
  · intro hf
    rcases hf with ⟨h2, h3⟩ | ⟨b, x, hp, hrest⟩
    · exact ⟨_, import_bad_count testGet d h2 h3⟩
    · rcases hrest with hx | ⟨t, ps, hx, hpos⟩
      · exact ⟨_, import_bad_hash testGet d b x hp hx⟩
      · rcases hpos with ⟨e, he⟩ | ⟨n, hn, hlow | ⟨h1, err, herr⟩ | ⟨h1, test, hget, hbig⟩⟩
        · exact ⟨_, import_bad_number testGet d b x t ps hp hx e he⟩
        · exact ⟨_, import_low_position testGet d b x t ps hp hx n hn hlow⟩
        · exact ⟨_, import_lookup_error testGet d b x t ps hp hx n hn h1 err herr⟩
        · exact ⟨_, import_out_of_range testGet d b x t ps hp hx n hn h1 test hget hbig⟩
  · intro hnf
    by_cases h3 : (strings.Split d.Id '/').length = 3
    · obtain ⟨b, t, s, hp⟩ := List.length_eq_three.mp h3
      exact ⟨_, by rw [import_explicit testGet d b t s hp]⟩
    · by_cases h2 : (strings.Split d.Id '/').length = 2
      · obtain ⟨b, x, hp⟩ := List.length_eq_two.mp h2
        by_cases hx2 : (strings.Split x '#').length = 2
        · obtain ⟨t, ps, hx⟩ := List.length_eq_two.mp hx2
          cases hn : strconv.Atoi ps with
          | error e => exact absurd (Or.inr ⟨b, x, hp, Or.inr ⟨t, ps, hx, Or.inl ⟨e, hn⟩⟩⟩) hnf
          | ok n =>
            by_cases hlow : n < 1
            · exact absurd
                (Or.inr ⟨b, x, hp, Or.inr ⟨t, ps, hx, Or.inr ⟨n, hn, Or.inl hlow⟩⟩⟩) hnf
            · have h1 : 1 ≤ n := by omega
              cases hget : testGet { BucketId := b, Id := t } with
              | error err =>
                exact absurd (Or.inr ⟨b, x, hp, Or.inr ⟨t, ps, hx,
                  Or.inr ⟨n, hn, Or.inr (Or.inl ⟨h1, err, hget⟩)⟩⟩⟩) hnf
              | ok test =>
                by_cases hbig : (test.Steps.length : Int) < n
                · exact absurd (Or.inr ⟨b, x, hp, Or.inr ⟨t, ps, hx,
                    Or.inr ⟨n, hn, Or.inr (Or.inr ⟨h1, test, hget, hbig⟩)⟩⟩⟩) hnf
                · obtain ⟨step, _, hres⟩ := import_position testGet d b x t ps hp hx n hn h1
                    test hget (by omega)
                  exact ⟨_, by rw [hres]⟩
        · exact absurd (Or.inr ⟨b, x, hp, Or.inl hx2⟩) hnf
      · exact absurd (Or.inl ⟨h2, h3⟩) hnf
  · intro b x t ps n test hp hx hn h1 hget hbig
    exact import_out_of_range testGet d b x t ps hp hx n hn h1 test hget hbig

/-- Position 4 in a test of three steps: the error names the test and the count. -/
theorem import_fails_exactly_on_malformed_witness :
    (importStateContext exampleTestGet (exampleData "b1/t1#4")).2 =
      .error "test t1 contains only 3 steps" :=
  (import_fails_exactly_on_malformed exampleTestGet (exampleData "b1/t1#4")).2.2
    "b1" "t1#4" "t1" "4" 4 { Id := "t1", Steps := [{ Id := "s1" }, { Id := "s2" }, { Id := "s3" }] }
    (by decide) (by decide) (by rfl) (by decide) rfl (by decide)

/-! ## Environment notification defaults -/

/-- C4: `Emails.IsDefault` returns true exactly when every field is zero-valued
(`NotifyAll` false, `NotifyOn` empty, `NotifyThreshold` 0, no `Recipients`): the
all-zero `Emails` reports true, and every `Emails` obtained from it by making a single
field non-zero reports false. -/
theorem emails_isDefault_iff_zero (e : Emails) :
    (e.IsDefault = true ↔
      e = { NotifyAll := false, NotifyOn := "", NotifyThreshold := 0, Recipients := [] }) ∧
    Emails.IsDefault
      { NotifyAll := false, NotifyOn := "", NotifyThreshold := 0, Recipients := [] } = true ∧
    Emails.IsDefault
      { NotifyAll := true, NotifyOn := "", NotifyThreshold := 0, Recipients := [] } = false ∧
    (∀ s : String, s ≠ "" → Emails.IsDefault
      { NotifyAll := false, NotifyOn := s, NotifyThreshold := 0, Recipients := [] } = false) ∧
    (∀ n : Int, n ≠ 0 → Emails.IsDefault
      { NotifyAll := false, NotifyOn := "", NotifyThreshold := n, Recipients := [] } = false) ∧
    (∀ rs : List Recipient, rs ≠ [] → Emails.IsDefault
      { NotifyAll := false, NotifyOn := "", NotifyThreshold := 0, Recipients := rs } = false) := by
  refine ⟨?_, by decide, by decide, ?_, ?_, ?_⟩
  · obtain ⟨a, o, n, rs⟩ := e
    simp [Emails.IsDefault, List.length_eq_zero, and_assoc]
  · intro s hs
    simp [Emails.IsDefault, hs]
  · intro n hn
    simp [Emails.IsDefault, hn]
  · intro rs hrs
    simp [Emails.IsDefault, hrs]

/-- An `Emails` whose only non-zero field is `NotifyOn` is not the default. -/
theorem emails_isDefault_iff_zero_witness :
    Emails.IsDefault
      { NotifyAll := false, NotifyOn := "all", NotifyThreshold := 0, Recipients := [] } =
      false :=
  (emails_isDefault_iff_zero
    { NotifyAll := false, NotifyOn := "", NotifyThreshold := 0, Recipients := [] }).2.2.2.1
    "all" (by decide)

/-! ## Lifecycle handlers -/

theorem requestRead_error (H : StepHelpers) (client : StepClient H) (d : ResourceData)
    (err : GoError) (h : client.GetRequest (readOpts d) = .error err) :
    resourceStepRequestRead H client d =
      if isNotFound err then { d := d.SetId "", diags := [], calls := [.GetRequest] }
      else { d := d, diags := diagErrorf ("Couldn't read step: " ++ err.text),
             calls := [.GetRequest] } := by
  simp [resourceStepRequestRead, h]

theorem subtestRead_error (H : StepHelpers) (client : StepClient H) (d : ResourceData)
    (err : GoError) (h : client.GetSubtest (readOpts d) = .error err) :
    resourceStepSubtestRead H client d =
      if isNotFound err then { d := d.SetId "", diags := [], calls := [.GetSubtest] }
      else { d := d
             diags := diagErrorf
               ("couldn't (is=" ++ fmtBool err.asRunscopeError ++ ") read step: " ++ err.text)
             calls := [.GetSubtest] } := by
  simp [resourceStepSubtestRead, h]

theorem diagErrorf_hasError (msg : String) : (diagErrorf msg).HasError = true := by
  simp [diagErrorf, Diagnostics.HasError]

/-- C5: in the request-step Read and in the subtest-step Read, a not-found (404) error
of the transport client sets the resource ID to the empty string and returns no
diagnostics; any other error leaves the resource data, and so the ID, unchanged and
returns an error diagnostic. -/
theorem read_not_found_clears_id (H : StepHelpers) (client : StepClient H) (d : ResourceData) :
    (∀ err, client.GetRequest (readOpts d) = .error err →
      (isNotFound err = true →
        (resourceStepRequestRead H client d).d.Id = "" ∧
        (resourceStepRequestRead H client d).diags = []) ∧
      (isNotFound err = false →
        (resourceStepRequestRead H client d).d = d ∧
        (resourceStepRequestRead H client d).d.Id = d.Id ∧
        (resourceStepRequestRead H client d).diags.HasError = true)) ∧
    (∀ err, client.GetSubtest (readOpts d) = .error err →
      (isNotFound err = true →
        (resourceStepSubtestRead H client d).d.Id = "" ∧
        (resourceStepSubtestRead H client d).diags = []) ∧
      (isNotFound err = false →
        (resourceStepSubtestRead H client d).d = d ∧
        (resourceStepSubtestRead H client d).d.Id = d.Id ∧
        (resourceStepSubtestRead H client d).diags.HasError = true)) := by
  constructor
  · intro err h
    rw [requestRead_error H client d err h]
    constructor
    · intro hnf
      simp [hnf, ResourceData.SetId, ResourceData.Id]
    · intro hnf
      simp [hnf, diagErrorf_hasError]
  · intro err h
    rw [subtestRead_error H client d err h]
    constructor
    · intro hnf
      simp [hnf, ResourceData.SetId, ResourceData.Id]
    · intro hnf
      simp [hnf, diagErrorf_hasError]

/-- Reading the present step `s1` when the server answers 404 clears the ID. -/
theorem read_not_found_clears_id_witness :
    (resourceStepRequestRead exampleHelpers
      (exampleClient (.error exampleNotFound) (.error exampleNotFound)
        (.error exampleNotFound) (.error exampleNotFound) (.error exampleNotFound)
        (.error exampleNotFound)) (exampleData "s1")).d.Id = "" ∧
    (resourceStepRequestRead exampleHelpers
      (exampleClient (.error exampleNotFound) (.error exampleNotFound)
        (.error exampleNotFound) (.error exampleNotFound) (.error exampleNotFound)
        (.error exampleNotFound)) (exampleData "s1")).diags = [] :=
  ((read_not_found_clears_id exampleHelpers
    (exampleClient (.error exampleNotFound) (.error exampleNotFound)
      (.error exampleNotFound) (.error exampleNotFound) (.error exampleNotFound)
      (.error exampleNotFound)) (exampleData "s1")).1 exampleNotFound rfl).1 rfl

theorem requestRead_ok (H : StepHelpers) (client : StepClient H) (d : ResourceData)
    (step : StepRequest H) (h : client.GetRequest (readOpts d) = .ok step) :
    (resourceStepRequestRead H client d).d.Id = d.Id ∧
      (resourceStepRequestRead H client d).diags = [] ∧
      (resourceStepRequestRead H client d).calls = [.GetRequest] := by
  refine ⟨?_, ?_, ?_⟩ <;> simp only [resourceStepRequestRead, h]
  split <;> rfl

theorem subtestRead_ok (H : StepHelpers) (client : StepClient H) (d : ResourceData)
    (step : StepSubtest H) (h : client.GetSubtest (readOpts d) = .ok step) :
    (resourceStepSubtestRead H client d).d.Id = d.Id ∧
      (resourceStepSubtestRead H client d).diags = [] ∧
      (resourceStepSubtestRead H client d).calls = [.GetSubtest] := by
  refine ⟨?_, ?_, ?_⟩ <;> simp only [resourceStepSubtestRead, h]
  rfl

/-- Outcome of the request-step Read by the answer to the lookup: without an error
diagnostic the ID is kept, or cleared on a not-found answer. -/
theorem requestRead_cases (H : StepHelpers) (client : StepClient H) (d : ResourceData) :
    ((resourceStepRequestRead H client d).diags = [] ∧
      (resourceStepRequestRead H client d).d.Id = d.Id ∧
      ∃ step, client.GetRequest (readOpts d) = .ok step) ∨
    ((resourceStepRequestRead H client d).diags = [] ∧
      (resourceStepRequestRead H client d).d.Id = "" ∧
      ∃ err, client.GetRequest (readOpts d) = .error err ∧ isNotFound err = true) ∨
    ((resourceStepRequestRead H client d).diags.HasError = true ∧
      (resourceStepRequestRead H client d).d = d ∧
      ∃ err, client.GetRequest (readOpts d) = .error err ∧ isNotFound err = false) := by
  cases h : client.GetRequest (readOpts d) with
  | ok step =>
    obtain ⟨h1, h2, _⟩ := requestRead_ok H client d step h
    exact Or.inl ⟨h2, h1, step, rfl⟩
  | error err =>
    rw [requestRead_error H client d err h]
    cases hnf : isNotFound err with
    | true => exact Or.inr (Or.inl ⟨by simp, by simp [ResourceData.SetId, ResourceData.Id], err, rfl, hnf⟩)
    | false => exact Or.inr (Or.inr ⟨by simp [diagErrorf_hasError], by simp, err, rfl, hnf⟩)

/-- Outcome of the subtest-step Read by the answer to the lookup. -/
theorem subtestRead_cases (H : StepHelpers) (client : StepClient H) (d : ResourceData) :
    ((resourceStepSubtestRead H client d).diags = [] ∧
      (resourceStepSubtestRead H client d).d.Id = d.Id ∧
      ∃ step, client.GetSubtest (readOpts d) = .ok step) ∨
    ((resourceStepSubtestRead H client d).diags = [] ∧
      (resourceStepSubtestRead H client d).d.Id = "" ∧
      ∃ err, client.GetSubtest (readOpts d) = .error err ∧ isNotFound err = true) ∨
    ((resourceStepSubtestRead H client d).diags.HasError = true ∧
      (resourceStepSubtestRead H client d).d = d ∧
      ∃ err, client.GetSubtest (readOpts d) = .error err ∧ isNotFound err = false) := by
  cases h : client.GetSubtest (readOpts d) with
  | ok step =>
    obtain ⟨h1, h2, _⟩ := subtestRead_ok H client d step h
    exact Or.inl ⟨h2, h1, step, rfl⟩
  | error err =>
    rw [subtestRead_error H client d err h]
    cases hnf : isNotFound err with
    | true => exact Or.inr (Or.inl ⟨by simp, by simp [ResourceData.SetId, ResourceData.Id], err, rfl, hnf⟩)
    | false => exact Or.inr (Or.inr ⟨by simp [diagErrorf_hasError], by simp, err, rfl, hnf⟩)

theorem requestCreate_error (H : StepHelpers) (client : StepClient H) (d : ResourceData)
    (err : GoError) (h : client.CreateRequest (requestCreateOpts H d) = .error err) :
    resourceStepRequestCreate H client d =
      { d := d, diags := diagErrorf ("Couldn't create step: " ++ err.text),
        calls := [.CreateRequest] } := by
  simp [resourceStepRequestCreate, h]

theorem requestCreate_ok (H : StepHelpers) (client : StepClient H) (d : ResourceData)
    (step : StepRequest H) (h : client.CreateRequest (requestCreateOpts H d) = .ok step) :
    resourceStepRequestCreate H client d =
      { resourceStepRequestRead H client (d.SetId step.ID) with
        calls := .CreateRequest :: (resourceStepRequestRead H client (d.SetId step.ID)).calls } := by
  simp [resourceStepRequestCreate, h]

theorem requestUpdate_error (H : StepHelpers) (client : StepClient H) (d : ResourceData)
    (err : GoError) (h : client.UpdateRequest (requestUpdateOpts H d) = .error err) :
    resourceStepRequestUpdate H client d =
      { d := d, diags := diagErrorf ("Couldn't create step: " ++ err.text),
        calls := [.UpdateRequest] } := by
  simp [resourceStepRequestUpdate, h]

theorem requestUpdate_ok (H : StepHelpers) (client : StepClient H) (d : ResourceData)
    (step : StepRequest H) (h : client.UpdateRequest (requestUpdateOpts H d) = .ok step) :
    resourceStepRequestUpdate H client d =
      { resourceStepRequestRead H client d with
        calls := .UpdateRequest :: (resourceStepRequestRead H client d).calls } := by
  simp [resourceStepRequestUpdate, h]

theorem subtestCreate_error (H : StepHelpers) (client : StepClient H) (d : ResourceData)
    (err : GoError) (h : client.CreateSubtest (subtestCreateOpts H d) = .error err) :
    resourceStepSubtestCreate H client d =
      if isNotFound err then { d := d.SetId "", diags := [], calls := [.CreateSubtest] }
      else { d := d, diags := diagErrorf ("couldn't read step: " ++ err.text),
             calls := [.CreateSubtest] } := by
  simp [resourceStepSubtestCreate, h]

theorem subtestCreate_ok (H : StepHelpers) (client : StepClient H) (d : ResourceData)
    (step : StepSubtest H) (h : client.CreateSubtest (subtestCreateOpts H d) = .ok step) :
    resourceStepSubtestCreate H client d =
      { resourceStepSubtestRead H client (d.SetId step.ID) with
        calls := .CreateSubtest :: (resourceStepSubtestRead H client (d.SetId step.ID)).calls } := by
  simp [resourceStepSubtestCreate, h]

theorem subtestUpdate_error (H : StepHelpers) (client : StepClient H) (d : ResourceData)
    (err : GoError) (h : client.UpdateSubtest (subtestUpdateOpts H d) = .error err) :
    resourceStepSubtestUpdate H client d =
      { d := d, diags := diagErrorf ("Couldn't create step: " ++ err.text),
        calls := [.UpdateSubtest] } := by
  simp [resourceStepSubtestUpdate, h]

theorem subtestUpdate_ok (H : StepHelpers) (client : StepClient H) (d : ResourceData)
    (step : StepSubtest H) (h : client.UpdateSubtest (subtestUpdateOpts H d) = .ok step) :
    resourceStepSubtestUpdate H client d =
      { resourceStepSubtestRead H client d with
        calls := .UpdateSubtest :: (resourceStepSubtestRead H client d).calls } := by
  simp [resourceStepSubtestUpdate, h]


/-- C6, as stated, fails: the request-step Create returns without an error diagnostic
and leaves the resource absent when the follow-up read answers not-found, and so does
the Update of the present resource `s1`. -/
theorem create_update_without_error_absent :
    (resourceStepRequestCreate exampleHelpers exampleClientLostStep
        (exampleData "")).diags.HasError = false ∧
    (resourceStepRequestCreate exampleHelpers exampleClientLostStep (exampleData "")).d.Id = "" ∧
    (exampleData "s1").Id ≠ "" ∧
    (resourceStepRequestUpdate exampleHelpers exampleClientLostStep
        (exampleData "s1")).diags.HasError = false ∧
    (resourceStepRequestUpdate exampleHelpers exampleClientLostStep (exampleData "s1")).d.Id = "" := by
  decide

/-- C6 (amended): whenever Create returns without an error diagnostic and the
transport calls it made reported no not-found error, the resource ID afterwards is the
step ID returned by the create call, so the resource is present when that
server-assigned ID is non-empty; whenever Update of a present resource returns without
an error diagnostic and its follow-up read reported no not-found error, the resource
is still present with the same ID; and Read, alone or as the follow-up read of Update,
changes the ID only by clearing it on a not-found answer to the step lookup. -/
theorem lifecycle_presence (H : StepHelpers) (client : StepClient H) (d : ResourceData) :
    ((∀ step err, client.CreateRequest (requestCreateOpts H d) = .ok step →
        client.GetRequest (readOpts (d.SetId step.ID)) = .error err →
        isNotFound err = false) →
      (resourceStepRequestCreate H client d).diags.HasError = false →
      ∃ step, client.CreateRequest (requestCreateOpts H d) = .ok step ∧
        (resourceStepRequestCreate H client d).d.Id = step.ID ∧
        (step.ID ≠ "" → (resourceStepRequestCreate H client d).d.present)) ∧
    ((∀ err, client.CreateSubtest (subtestCreateOpts H d) = .error err →
        isNotFound err = false) →
      (∀ step err, client.CreateSubtest (subtestCreateOpts H d) = .ok step →
        client.GetSubtest (readOpts (d.SetId step.ID)) = .error err →
        isNotFound err = false) →
      (resourceStepSubtestCreate H client d).diags.HasError = false →
      ∃ step, client.CreateSubtest (subtestCreateOpts H d) = .ok step ∧
        (resourceStepSubtestCreate H client d).d.Id = step.ID ∧
        (step.ID ≠ "" → (resourceStepSubtestCreate H client d).d.present)) ∧
    ((∀ step err, client.UpdateRequest (requestUpdateOpts H d) = .ok step →
        client.GetRequest (readOpts d) = .error err → isNotFound err = false) →
      d.present → (resourceStepRequestUpdate H client d).diags.HasError = false →
      (resourceStepRequestUpdate H client d).d.Id = d.Id ∧
        (resourceStepRequestUpdate H client d).d.present) ∧
    ((∀ step err, client.UpdateSubtest (subtestUpdateOpts H d) = .ok step →
        client.GetSubtest (readOpts d) = .error err → isNotFound err = false) →
      d.present → (resourceStepSubtestUpdate H client d).diags.HasError = false →
      (resourceStepSubtestUpdate H client d).d.Id = d.Id ∧
        (resourceStepSubtestUpdate H client d).d.present) ∧
    ((resourceStepRequestRead H client d).d.Id ≠ d.Id →
      (resourceStepRequestRead H client d).d.Id = "" ∧
        ∃ err, client.GetRequest (readOpts d) = .error err ∧ isNotFound err = true) ∧
    ((resourceStepSubtestRead H client d).d.Id ≠ d.Id →
      (resourceStepSubtestRead H client d).d.Id = "" ∧
        ∃ err, client.GetSubtest (readOpts d) = .error err ∧ isNotFound err = true) ∧
    ((resourceStepRequestUpdate H client d).d.Id ≠ d.Id →
      (resourceStepRequestUpdate H client d).d.Id = "" ∧
        ∃ err, client.GetRequest (readOpts d) = .error err ∧ isNotFound err = true) ∧
    ((resourceStepSubtestUpdate H client d).d.Id ≠ d.Id →
      (resourceStepSubtestUpdate H client d).d.Id = "" ∧
        ∃ err, client.GetSubtest (readOpts d) = .error err ∧ isNotFound err = true) := by
  refine ⟨?_, ?_, ?_, ?_, ?_, ?_, ?_, ?_⟩
  · intro hget hdiag
    cases hc : client.CreateRequest (requestCreateOpts H d) with
    | error err =>
      rw [requestCreate_error H client d err hc] at hdiag
      simp [diagErrorf_hasError] at hdiag
    | ok step =>
      rw [requestCreate_ok H client d step hc] at hdiag ⊢
      rcases requestRead_cases H client (d.SetId step.ID) with
        ⟨_, hid, _⟩ | ⟨_, _, err, he, hnf⟩ | ⟨herr, _, _⟩
      · have hid' : (resourceStepRequestRead H client (d.SetId step.ID)).d.Id = step.ID := hid
        exact ⟨step, rfl, hid', fun hne hempty => hne (hid'.symm.trans hempty)⟩
      · rw [hget step err hc he] at hnf
        exact absurd hnf (by decide)
      · simp only at hdiag
        rw [herr] at hdiag
        exact absurd hdiag (by decide)
  · intro hcreate hget hdiag
    cases hc : client.CreateSubtest (subtestCreateOpts H d) with
    | error err =>
      rw [subtestCreate_error H client d err hc, hcreate err hc] at hdiag
      simp [diagErrorf_hasError] at hdiag
    | ok step =>
      rw [subtestCreate_ok H client d step hc] at hdiag ⊢
      rcases subtestRead_cases H client (d.SetId step.ID) with
        ⟨_, hid, _⟩ | ⟨_, _, err, he, hnf⟩ | ⟨herr, _, _⟩
      · have hid' : (resourceStepSubtestRead H client (d.SetId step.ID)).d.Id = step.ID := hid
        exact ⟨step, rfl, hid', fun hne hempty => hne (hid'.symm.trans hempty)⟩
      · rw [hget step err hc he] at hnf
        exact absurd hnf (by decide)
      · simp only at hdiag
        rw [herr] at hdiag
        exact absurd hdiag (by decide)
  · intro hget hpres hdiag
    cases hc : client.UpdateRequest (requestUpdateOpts H d) with
    | error err =>
      rw [requestUpdate_error H client d err hc] at hdiag
      simp [diagErrorf_hasError] at hdiag
    | ok step =>
      rw [requestUpdate_ok H client d step hc] at hdiag ⊢
      rcases requestRead_cases H client d with
        ⟨_, hid, _⟩ | ⟨_, _, err, he, hnf⟩ | ⟨herr, _, _⟩
      · exact ⟨hid, fun hempty => hpres (hid.symm.trans hempty)⟩
      · rw [hget step err hc he] at hnf
        exact absurd hnf (by decide)
      · simp only at hdiag
        rw [herr] at hdiag
        exact absurd hdiag (by decide)
  · intro hget hpres hdiag
    cases hc : client.UpdateSubtest (subtestUpdateOpts H d) with
    | error err =>
      rw [subtestUpdate_error H client d err hc] at hdiag
      simp [diagErrorf_hasError] at hdiag
    | ok step =>
      rw [subtestUpdate_ok H client d step hc] at hdiag ⊢
      rcases subtestRead_cases H client d with
        ⟨_, hid, _⟩ | ⟨_, _, err, he, hnf⟩ | ⟨herr, _, _⟩
      · exact ⟨hid, fun hempty => hpres (hid.symm.trans hempty)⟩
      · rw [hget step err hc he] at hnf
        exact absurd hnf (by decide)
      · simp only at hdiag
        rw [herr] at hdiag
        exact absurd hdiag (by decide)
  · intro hne
    rcases requestRead_cases H client d with ⟨_, hid, _⟩ | ⟨_, hid, herr⟩ | ⟨_, hd, _⟩
    · exact absurd hid hne
    · exact ⟨hid, herr⟩
    · exact absurd (by rw [hd]) hne
  · intro hne
    rcases subtestRead_cases H client d with ⟨_, hid, _⟩ | ⟨_, hid, herr⟩ | ⟨_, hd, _⟩
    · exact absurd hid hne
    · exact ⟨hid, herr⟩
    · exact absurd (by rw [hd]) hne
  · intro hne
    cases hc : client.UpdateRequest (requestUpdateOpts H d) with
    | error err =>
      rw [requestUpdate_error H client d err hc] at hne
      exact absurd rfl hne
    | ok step =>
      rw [requestUpdate_ok H client d step hc] at hne ⊢
      rcases requestRead_cases H client d with ⟨_, hid, _⟩ | ⟨_, hid, herr⟩ | ⟨_, hd, _⟩
      · exact absurd hid hne
      · exact ⟨hid, herr⟩
      · exact absurd (by simp only; rw [hd]) hne
  · intro hne
    cases hc : client.UpdateSubtest (subtestUpdateOpts H d) with
    | error err =>
      rw [subtestUpdate_error H client d err hc] at hne
      exact absurd rfl hne
    | ok step =>
      rw [subtestUpdate_ok H client d step hc] at hne ⊢
      rcases subtestRead_cases H client d with ⟨_, hid, _⟩ | ⟨_, hid, herr⟩ | ⟨_, hd, _⟩
      · exact absurd hid hne
      · exact ⟨hid, herr⟩
      · exact absurd (by simp only; rw [hd]) hne

/-- A server that knows step `s1` and answers not-found for every other ID: Create
looks up `s1` only, and leaves the resource present under the ID `s1`. -/
theorem lifecycle_presence_witness :
    ∃ step, exampleClientKnowsS1.CreateRequest
        (requestCreateOpts exampleHelpers (exampleData "")) = .ok step ∧
      (resourceStepRequestCreate exampleHelpers exampleClientKnowsS1 (exampleData "")).d.Id =
        step.ID ∧
      (step.ID ≠ "" →
        (resourceStepRequestCreate exampleHelpers exampleClientKnowsS1
          (exampleData "")).d.present) :=
  (lifecycle_presence exampleHelpers exampleClientKnowsS1 (exampleData "")).1
    (fun step err hc he => by
      have hs : step = exampleStepRequest "s1" := (Except.ok.inj hc).symm
      subst hs
      exact absurd he (by simp [exampleClientKnowsS1, readOpts, ResourceData.SetId,
        ResourceData.Id, exampleStepRequest]))
    (by decide)

/-- C7, as stated, fails: a not-found error from the create call of the request-step
Create, and from the update call of either Update, is returned as an error diagnostic,
and the ID of the present resource `s1` is not cleared. -/
theorem create_update_not_found_is_fatal :
    isNotFound exampleNotFound = true ∧
    (resourceStepRequestCreate exampleHelpers exampleClientNotFound
        (exampleData "")).diags.HasError = true ∧
    (resourceStepRequestUpdate exampleHelpers exampleClientNotFound
        (exampleData "s1")).diags.HasError = true ∧
    (resourceStepRequestUpdate exampleHelpers exampleClientNotFound
        (exampleData "s1")).d.Id = "s1" ∧
    (resourceStepSubtestUpdate exampleHelpers exampleClientNotFound
        (exampleData "s1")).diags.HasError = true ∧
    (resourceStepSubtestUpdate exampleHelpers exampleClientNotFound
        (exampleData "s1")).d.Id = "s1" := by
  decide

/-- C7 (amended): a not-found error from the transport client is non-fatal (no
diagnostic is returned and the resource ID is cleared) in the Read handlers of both
resources, also when Read runs as the follow-up read of a successful Create or Update,
and in the subtest-step Create; a not-found error from the create call of the
request-step Create or from the update call of either Update handler is returned as an
error diagnostic and leaves the resource data, and so the ID, unchanged. -/
theorem not_found_handling (H : StepHelpers) (client : StepClient H) (d : ResourceData) :
    (∀ err, client.GetRequest (readOpts d) = .error err → isNotFound err = true →
      (resourceStepRequestRead H client d).diags = [] ∧
        (resourceStepRequestRead H client d).d.Id = "") ∧
    (∀ err, client.GetSubtest (readOpts d) = .error err → isNotFound err = true →
      (resourceStepSubtestRead H client d).diags = [] ∧
        (resourceStepSubtestRead H client d).d.Id = "") ∧
    (∀ err, client.CreateSubtest (subtestCreateOpts H d) = .error err →
      isNotFound err = true →
      (resourceStepSubtestCreate H client d).diags = [] ∧
        (resourceStepSubtestCreate H client d).d.Id = "") ∧
    (∀ step err, client.CreateRequest (requestCreateOpts H d) = .ok step →
      client.GetRequest (readOpts (d.SetId step.ID)) = .error err → isNotFound err = true →
      (resourceStepRequestCreate H client d).diags = [] ∧
        (resourceStepRequestCreate H client d).d.Id = "") ∧
    (∀ step err, client.CreateSubtest (subtestCreateOpts H d) = .ok step →
      client.GetSubtest (readOpts (d.SetId step.ID)) = .error err → isNotFound err = true →
      (resourceStepSubtestCreate H client d).diags = [] ∧
        (resourceStepSubtestCreate H client d).d.Id = "") ∧
    (∀ step err, client.UpdateRequest (requestUpdateOpts H d) = .ok step →
      client.GetRequest (readOpts d) = .error err → isNotFound err = true →
      (resourceStepRequestUpdate H client d).diags = [] ∧
        (resourceStepRequestUpdate H client d).d.Id = "") ∧
    (∀ step err, client.UpdateSubtest (subtestUpdateOpts H d) = .ok step →
      client.GetSubtest (readOpts d) = .error err → isNotFound err = true →
      (resourceStepSubtestUpdate H client d).diags = [] ∧
        (resourceStepSubtestUpdate H client d).d.Id = "") ∧
    (∀ err, client.CreateRequest (requestCreateOpts H d) = .error err →
      isNotFound err = true →
      (resourceStepRequestCreate H client d).diags.HasError = true ∧
        (resourceStepRequestCreate H client d).d = d) ∧
    (∀ err, client.UpdateRequest (requestUpdateOpts H d) = .error err →
      isNotFound err = true →
      (resourceStepRequestUpdate H client d).diags.HasError = true ∧
        (resourceStepRequestUpdate H client d).d = d) ∧
    (∀ err, client.UpdateSubtest (subtestUpdateOpts H d) = .error err →
      isNotFound err = true →
      (resourceStepSubtestUpdate H client d).diags.HasError = true ∧
        (resourceStepSubtestUpdate H client d).d = d) := by
  refine ⟨?_, ?_, ?_, ?_, ?_, ?_, ?_, ?_, ?_, ?_⟩
  · intro err h hnf
    rw [requestRead_error H client d err h]
    simp [hnf, ResourceData.SetId, ResourceData.Id]
  · intro err h hnf
    rw [subtestRead_error H client d err h]
    simp [hnf, ResourceData.SetId, ResourceData.Id]
  · intro err h hnf
    rw [subtestCreate_error H client d err h]
    simp [hnf, ResourceData.SetId, ResourceData.Id]
  · intro step err hc h hnf
    rw [requestCreate_ok H client d step hc, requestRead_error H client _ err h]
    simp [hnf, ResourceData.SetId, ResourceData.Id]
  · intro step err hc h hnf
    rw [subtestCreate_ok H client d step hc, subtestRead_error H client _ err h]
    simp [hnf, ResourceData.SetId, ResourceData.Id]
  · intro step err hc h hnf
    rw [requestUpdate_ok H client d step hc, requestRead_error H client _ err h]
    simp [hnf, ResourceData.SetId, ResourceData.Id]
  · intro step err hc h hnf
    rw [subtestUpdate_ok H client d step hc, subtestRead_error H client _ err h]
    simp [hnf, ResourceData.SetId, ResourceData.Id]
  · intro err h _
    rw [requestCreate_error H client d err h]
    exact ⟨diagErrorf_hasError _, rfl⟩
  · intro err h _
    rw [requestUpdate_error H client d err h]
    exact ⟨diagErrorf_hasError _, rfl⟩
  · intro err h _
    rw [subtestUpdate_error H client d err h]
    exact ⟨diagErrorf_hasError _, rfl⟩

/-- Creating a subtest step against a server that answers not-found clears the ID
and returns no diagnostic. -/
theorem not_found_handling_witness :
    (resourceStepSubtestCreate exampleHelpers exampleClientNotFound (exampleData "")).diags =
        [] ∧
      (resourceStepSubtestCreate exampleHelpers exampleClientNotFound (exampleData "")).d.Id =
        "" :=
  (not_found_handling exampleHelpers exampleClientNotFound (exampleData "")).2.2.1
    exampleNotFound rfl rfl

/-- C8: in the Create and Update handlers of the request-step and subtest-step
resources, an error of the create or update call that is not a not-found error aborts
the operation: the handler returns one error diagnostic whose message ends with the
text of the underlying error, leaves the resource data (and so the ID) as it was, and
makes no further transport call, so the follow-up read is not performed. -/
theorem create_update_error_aborts (H : StepHelpers) (client : StepClient H)
    (d : ResourceData) :
    (∀ err, client.CreateRequest (requestCreateOpts H d) = .error err →
      isNotFound err = false →
      (resourceStepRequestCreate H client d).diags =
          [{ Severity := .Error, Summary := "Couldn't create step: " ++ err.text }] ∧
        (resourceStepRequestCreate H client d).diags.HasError = true ∧
        (resourceStepRequestCreate H client d).d = d ∧
        (resourceStepRequestCreate H client d).d.Id = d.Id ∧
        (resourceStepRequestCreate H client d).calls = [.CreateRequest]) ∧
    (∀ err, client.UpdateRequest (requestUpdateOpts H d) = .error err →
      isNotFound err = false →
      (resourceStepRequestUpdate H client d).diags =
          [{ Severity := .Error, Summary := "Couldn't create step: " ++ err.text }] ∧
        (resourceStepRequestUpdate H client d).diags.HasError = true ∧
        (resourceStepRequestUpdate H client d).d = d ∧
        (resourceStepRequestUpdate H client d).d.Id = d.Id ∧
        (resourceStepRequestUpdate H client d).calls = [.UpdateRequest]) ∧
    (∀ err, client.CreateSubtest (subtestCreateOpts H d) = .error err →
      isNotFound err = false →
      (resourceStepSubtestCreate H client d).diags =
          [{ Severity := .Error, Summary := "couldn't read step: " ++ err.text }] ∧
        (resourceStepSubtestCreate H client d).diags.HasError = true ∧
        (resourceStepSubtestCreate H client d).d = d ∧
        (resourceStepSubtestCreate H client d).d.Id = d.Id ∧
        (resourceStepSubtestCreate H client d).calls = [.CreateSubtest]) ∧
    (∀ err, client.UpdateSubtest (subtestUpdateOpts H d) = .error err →
      isNotFound err = false →
      (resourceStepSubtestUpdate H client d).diags =
          [{ Severity := .Error, Summary := "Couldn't create step: " ++ err.text }] ∧
        (resourceStepSubtestUpdate H client d).diags.HasError = true ∧
        (resourceStepSubtestUpdate H client d).d = d ∧
        (resourceStepSubtestUpdate H client d).d.Id = d.Id ∧
        (resourceStepSubtestUpdate H client d).calls = [.UpdateSubtest]) := by
  refine ⟨?_, ?_, ?_, ?_⟩
  · intro err h _
    rw [requestCreate_error H client d err h]
    exact ⟨rfl, diagErrorf_hasError _, rfl, rfl, rfl⟩
  · intro err h _
    rw [requestUpdate_error H client d err h]
    exact ⟨rfl, diagErrorf_hasError _, rfl, rfl, rfl⟩
  · intro err h hnf
    rw [subtestCreate_error H client d err h, hnf]
    exact ⟨rfl, diagErrorf_hasError _, rfl, rfl, rfl⟩
  · intro err h _
    rw [subtestUpdate_error H client d err h]
    exact ⟨rfl, diagErrorf_hasError _, rfl, rfl, rfl⟩

/-- A server error on the create call: one error diagnostic carrying the text, the
resource data untouched, no step lookup. -/
theorem create_update_error_aborts_witness :
    (resourceStepRequestCreate exampleHelpers exampleClientServerError
        (exampleData "")).diags =
      [{ Severity := .Error, Summary := "Couldn't create step: 500 Internal Server Error" }] ∧
    (resourceStepRequestCreate exampleHelpers exampleClientServerError
        (exampleData "")).calls = [.CreateRequest] := by
  obtain ⟨h1, _, _, _, h5⟩ :=
    (create_update_error_aborts exampleHelpers exampleClientServerError (exampleData "")).1
      exampleServerError rfl rfl
  exact ⟨h1, h5⟩

/-! ## Round trips -/

theorem appendEach_eq_map {α β : Type} (f : α → β) (xs : List α) (out : List β) :
    appendEach f xs out = out ++ xs.map f := by
  induction xs generalizing out with
  | nil => simp [appendEach]
  | cons x xs ih =>
    have h := ih (out ++ [f x])
    simp only [appendEach, List.foldl_cons] at h ⊢
    rw [h]
    simp

theorem fromSchema_ofCreateRequest (opts : EnvironmentCreateOpts) (id : String) :
    EnvironmentFromSchema (schema.Environment.ofCreateRequest id (createRequestBody opts)) =
      { toEnvironmentBase := opts.toEnvironmentBase, Id := id } := by
  obtain ⟨uri, ⟨name, script, pc, iv, ints, regs, ras, rof, ssl, hooks, ⟨na, no, nt, rcps⟩⟩⟩ := opts
  simp [EnvironmentFromSchema, schema.Environment.ofCreateRequest, createRequestBody,
    appendEach_eq_map, Function.comp_def]

theorem fromSchema_ofUpdateRequest (opts : EnvironmentUpdateOpts) (id : String) :
    EnvironmentFromSchema (schema.Environment.ofUpdateRequest id (updateRequestBody opts)) =
      { toEnvironmentBase := opts.toEnvironmentBase, Id := id } := by
  obtain ⟨uri, ⟨name, script, pc, iv, ints, regs, ras, rof, ssl, hooks, ⟨na, no, nt, rcps⟩⟩⟩ := opts
  simp [EnvironmentFromSchema, schema.Environment.ofUpdateRequest, updateRequestBody,
    appendEach_eq_map, Function.comp_def]

/-- C9: environment mapping round trip.  For every `EnvironmentBase` `b`, the request
body that Create (equally Update) builds from `b`, carried back by a response
environment with exactly those fields and passed through `EnvironmentFromSchema`,
gives an `Environment` whose `EnvironmentBase` equals `b` (so all scalars, the initial
variables, regions, webhooks, integrations, remote agents and recipients agree, in
length, order and element fields); the `Id` is the server-assigned one.  Accordingly
`Create` and `Update` against a server that echoes the body return `b` under that
`Id`. -/
theorem environment_round_trip (b : EnvironmentBase) (uri : EnvironmentUriOpts)
    (get : EnvironmentGetOpts) (id : String) (c : EnvironmentTransport) :
    (EnvironmentFromSchema (schema.Environment.ofCreateRequest id
      (createRequestBody { toEnvironmentUriOpts := uri, toEnvironmentBase := b }))).toEnvironmentBase
      = b ∧
    (EnvironmentFromSchema (schema.Environment.ofCreateRequest id
      (createRequestBody { toEnvironmentUriOpts := uri, toEnvironmentBase := b }))).Id = id ∧
    (EnvironmentFromSchema (schema.Environment.ofUpdateRequest id
      (updateRequestBody { toEnvironmentGetOpts := get, toEnvironmentBase := b }))).toEnvironmentBase
      = b ∧
    (EnvironmentFromSchema (schema.Environment.ofUpdateRequest id
      (updateRequestBody { toEnvironmentGetOpts := get, toEnvironmentBase := b }))).Id = id ∧
    (c.post uri.BaseURL
        (createRequestBody { toEnvironmentUriOpts := uri, toEnvironmentBase := b }) =
        .ok (schema.Environment.ofCreateRequest id
          (createRequestBody { toEnvironmentUriOpts := uri, toEnvironmentBase := b })) →
      EnvironmentClient.Create c { toEnvironmentUriOpts := uri, toEnvironmentBase := b } =
        .ok { toEnvironmentBase := b, Id := id }) ∧
    (c.put get.URL
        (updateRequestBody { toEnvironmentGetOpts := get, toEnvironmentBase := b }) =
        .ok (schema.Environment.ofUpdateRequest id
          (updateRequestBody { toEnvironmentGetOpts := get, toEnvironmentBase := b })) →
      EnvironmentClient.Update c { toEnvironmentGetOpts := get, toEnvironmentBase := b } =
        .ok { toEnvironmentBase := b, Id := id }) := by
  refine ⟨?_, ?_, ?_, ?_, ?_, ?_⟩
  · rw [fromSchema_ofCreateRequest]
  · rw [fromSchema_ofCreateRequest]
  · rw [fromSchema_ofUpdateRequest]
  · rw [fromSchema_ofUpdateRequest]
  · intro h
    simp only [EnvironmentClient.Create, h, fromSchema_ofCreateRequest]
  · intro h
    simp only [EnvironmentClient.Update, h, fromSchema_ofUpdateRequest]

/-- Creating the example environment against an echoing server returns it under the
server's ID. -/
theorem environment_round_trip_witness :
    EnvironmentClient.Create exampleEchoTransport
        { toEnvironmentUriOpts := { BucketId := "b1", TestId := "" },
          toEnvironmentBase := exampleEnvironmentBase } =
      .ok { toEnvironmentBase := exampleEnvironmentBase, Id := "e1" } :=
  (environment_round_trip exampleEnvironmentBase { BucketId := "b1", TestId := "" }
    { BucketId := "b1", TestId := "", Id := "e1" } "e1" exampleEchoTransport).2.2.2.2.1 rfl

theorem okString_zero (d : ResourceData) (key : String) :
    okString d key "" = d.GetString key := by
  unfold okString ResourceData.GetOk ResourceData.GetString
  cases h : d.attrs key with
  | none => rfl
  | some v =>
    cases v with
    | str s =>
      by_cases hs : s = ""
      · simp [ResourceData.isZero, hs]
      · simp [ResourceData.isZero, hs]
    | bool b => cases b <;> simp [ResourceData.isZero]
    | strs l => cases l <;> simp [ResourceData.isZero]
    | blocks l => cases l <;> simp [ResourceData.isZero]

theorem okBool_zero (d : ResourceData) (key : String) :
    okBool d key false = d.GetBool key := by
  unfold okBool ResourceData.GetOk ResourceData.GetBool
  cases h : d.attrs key with
  | none => rfl
  | some v =>
    cases v with
    | str s =>
      by_cases hs : s = ""
      · simp [ResourceData.isZero, hs]
      · simp [ResourceData.isZero, hs]
    | bool b => cases b <;> simp [ResourceData.isZero]
    | strs l => cases l <;> simp [ResourceData.isZero]
    | blocks l => cases l <;> simp [ResourceData.isZero]

/-- C10: subtest-step config round trip.  For every configuration `d` of
`source_bucket_id`, `source_test_id`, `source_environment_id` and
`use_parent_environment`, if the server returns a step whose `BucketKey`, `TestUUID`,
`EnvironmentUUID` and `UseParentEnvironment` equal the options `expandStepSubtestOpts`
produces from `d`, then after `resourceStepSubtestRead` the four state attributes are
set to the configured values as `d.Get` reports them (the zero value where the
attribute is unset or zero-valued and so skipped by expand). -/
theorem subtest_config_round_trip (H : StepHelpers) (client : StepClient H)
    (d : ResourceData) (step : StepSubtest H)
    (hget : client.GetSubtest (readOpts d) = .ok step)
    (hb : step.BucketKey = (expandStepSubtestOpts H d (StepSubtestOpts.zero H)).BucketKey)
    (ht : step.TestUUID = (expandStepSubtestOpts H d (StepSubtestOpts.zero H)).TestUUID)
    (he : step.EnvironmentUUID =
      (expandStepSubtestOpts H d (StepSubtestOpts.zero H)).EnvironmentUUID)
    (hu : step.UseParentEnvironment =
      (expandStepSubtestOpts H d (StepSubtestOpts.zero H)).UseParentEnvironment) :
    (resourceStepSubtestRead H client d).diags = [] ∧
    (resourceStepSubtestRead H client d).d.attrs "source_bucket_id" =
      some (.str (d.GetString "source_bucket_id")) ∧
    (resourceStepSubtestRead H client d).d.attrs "source_test_id" =
      some (.str (d.GetString "source_test_id")) ∧
    (resourceStepSubtestRead H client d).d.attrs "source_environment_id" =
      some (.str (d.GetString "source_environment_id")) ∧
    (resourceStepSubtestRead H client d).d.attrs "use_parent_environment" =
      some (.bool (d.GetBool "use_parent_environment")) ∧
    (resourceStepSubtestRead H client d).d.GetString "source_bucket_id" =
      d.GetString "source_bucket_id" ∧
    (resourceStepSubtestRead H client d).d.GetString "source_test_id" =
      d.GetString "source_test_id" ∧
    (resourceStepSubtestRead H client d).d.GetString "source_environment_id" =
      d.GetString "source_environment_id" ∧
    (resourceStepSubtestRead H client d).d.GetBool "use_parent_environment" =
      d.GetBool "use_parent_environment" := by
  simp only [expandStepSubtestOpts, StepSubtestOpts.zero, okString_zero, okBool_zero]
    at hb ht he hu
  simp [resourceStepSubtestRead, hget, ResourceData.Set, ResourceData.GetString,
    ResourceData.GetBool, hb, ht, he, hu]

/-- The example configuration (source environment unset) survives the round trip. -/
theorem subtest_config_round_trip_witness :
    (resourceStepSubtestRead exampleHelpers exampleSubtestClient
        exampleSubtestConfig).d.GetString "source_bucket_id" = "b2" ∧
    (resourceStepSubtestRead exampleHelpers exampleSubtestClient
        exampleSubtestConfig).d.GetString "source_environment_id" = "" ∧
    (resourceStepSubtestRead exampleHelpers exampleSubtestClient
        exampleSubtestConfig).d.GetBool "use_parent_environment" = true := by
  obtain ⟨_, _, _, _, _, h1, _, h3, h4⟩ :=
    subtest_config_round_trip exampleHelpers exampleSubtestClient exampleSubtestConfig
      { BucketKey := "b2", TestUUID := "t2", EnvironmentUUID := "",
        UseParentEnvironment := true, Variables := [], Assertions := [], ID := "s1" }
      rfl (by decide) (by decide) (by decide) (by decide)
  exact ⟨h1, h3, h4⟩

/-! ## Environment endpoint paths -/

/-- C11: environment endpoint paths encode ownership.  `BaseURL` is
`/buckets/<BucketId>/environments` when `TestId` is empty (bucket-owned) and
`/buckets/<BucketId>/test/<TestId>/environments` otherwise (test-owned); `URL` is
`BaseURL` followed by `/` and `Id`; and every such path starts with
`/buckets/<BucketId>/`. -/
theorem environment_paths (opts : EnvironmentUriOpts) (get : EnvironmentGetOpts) :
    (opts.TestId = "" →
      opts.BaseURL = "/buckets/" ++ opts.BucketId ++ "/environments") ∧
    (opts.TestId ≠ "" →
      opts.BaseURL =
        "/buckets/" ++ opts.BucketId ++ "/test/" ++ opts.TestId ++ "/environments") ∧
    get.URL = get.toEnvironmentUriOpts.BaseURL ++ "/" ++ get.Id ∧
    (∃ rest, opts.BaseURL = "/buckets/" ++ opts.BucketId ++ "/" ++ rest) ∧
    (∃ rest, get.URL = "/buckets/" ++ get.BucketId ++ "/" ++ rest) := by
  have hbase : ∀ o : EnvironmentUriOpts,
      ∃ rest, o.BaseURL = "/buckets/" ++ o.BucketId ++ "/" ++ rest := by
    intro o
    by_cases h : o.TestId = ""
    · refine ⟨"environments", ?_⟩
      simp only [EnvironmentUriOpts.BaseURL, h, if_true, String.append_assoc]
      rfl
    · refine ⟨"test/" ++ o.TestId ++ "/environments", ?_⟩
      simp only [EnvironmentUriOpts.BaseURL, h, if_false, String.append_assoc]
      rfl
  refine ⟨?_, ?_, rfl, hbase opts, ?_⟩
  · intro h
    simp [EnvironmentUriOpts.BaseURL, h]
  · intro h
    simp [EnvironmentUriOpts.BaseURL, h]
  · obtain ⟨rest, hrest⟩ := hbase get.toEnvironmentUriOpts
    refine ⟨rest ++ "/" ++ get.Id, ?_⟩
    simp only [EnvironmentGetOpts.URL, hrest, String.append_assoc]

/-- The environment `e1` of test `t1` in bucket `b1`. -/
theorem environment_paths_witness :
    EnvironmentUriOpts.BaseURL { BucketId := "b1", TestId := "t1" } =
      "/buckets/b1/test/t1/environments" :=
  (environment_paths { BucketId := "b1", TestId := "t1" }
    { BucketId := "b1", TestId := "t1", Id := "e1" }).2.1 (by decide)

/-! ## The importer never indexes out of range -/

/-- Every run of the importer ends in an error or in one returned resource. -/
theorem import_result_cases (testGet : TestGetOpts → Except GoError Test)
    (d : ResourceData) :
    (∃ msg, (importStateContext testGet d).2 = .error msg) ∨
      (∃ r, (importStateContext testGet d).2 = .ok [r]) := by
  by_cases h3 : (strings.Split d.Id '/').length = 3
  · obtain ⟨b, t, s, hp⟩ := List.length_eq_three.mp h3
    exact Or.inr ⟨_, by rw [import_explicit testGet d b t s hp]⟩
  · by_cases h2 : (strings.Split d.Id '/').length = 2
    · obtain ⟨b, x, hp⟩ := List.length_eq_two.mp h2
      by_cases hx2 : (strings.Split x '#').length = 2
      · obtain ⟨t, ps, hx⟩ := List.length_eq_two.mp hx2
        cases hn : strconv.Atoi ps with
        | error e => exact Or.inl ⟨_, import_bad_number testGet d b x t ps hp hx e hn⟩
        | ok n =>
          by_cases hlow : n < 1
          · exact Or.inl ⟨_, import_low_position testGet d b x t ps hp hx n hn hlow⟩
          · have h1 : 1 ≤ n := by omega
            cases hget : testGet { BucketId := b, Id := t } with
            | error err =>
              exact Or.inl ⟨_, import_lookup_error testGet d b x t ps hp hx n hn h1 err hget⟩
            | ok test =>
              by_cases hbig : (test.Steps.length : Int) < n
              · exact Or.inl
                  ⟨_, import_out_of_range testGet d b x t ps hp hx n hn h1 test hget hbig⟩
              · obtain ⟨step, _, hres⟩ := import_position testGet d b x t ps hp hx n hn h1
                  test hget (by omega)
                exact Or.inr ⟨_, by rw [hres]⟩
      · exact Or.inl ⟨_, import_bad_hash testGet d b x hp hx2⟩
    · exact Or.inl ⟨_, import_bad_count testGet d h2 h3⟩

/-- C12: the request-step importer never indexes out of range.  For every ID string
(the empty string and strings without `/` or `#` included) and every answer of the
test lookup (the empty step list included), no access `parts[0]`, `parts[1]`,
`parts[2]` or `test.Steps[stepPos-1]` that is reached is out of bounds: the importer
does not panic, it returns either an error or a result. -/
theorem import_never_panics (testGet : TestGetOpts → Except GoError Test)
    (d : ResourceData) :
    (importStateContext testGet d).2 ≠ .panic ∧
    ((∃ msg, (importStateContext testGet d).2 = .error msg) ∨
      (∃ r, (importStateContext testGet d).2 = .ok [r])) ∧
    goIndex (strings.Split d.Id '/') 0 ≠ none ∧
    ((strings.Split d.Id '/').length = 3 →
      goIndex (strings.Split d.Id '/') 1 ≠ none ∧ goIndex (strings.Split d.Id '/') 2 ≠ none) ∧
    ((strings.Split d.Id '/').length = 2 → goIndex (strings.Split d.Id '/') 1 ≠ none) ∧
    (∀ x : String, (strings.Split x '#').length = 2 →
      goIndex (strings.Split x '#') 0 ≠ none ∧ goIndex (strings.Split x '#') 1 ≠ none) ∧
    (∀ (n : Int) (test : Test), 1 ≤ n → ¬ ((test.Steps.length : Int) < n) →
      goIndex test.Steps (n - 1) ≠ none) := by
  refine ⟨?_, import_result_cases testGet d, ?_, ?_, ?_, ?_, ?_⟩
  · rcases import_result_cases testGet d with ⟨msg, h⟩ | ⟨r, h⟩ <;> rw [h] <;> simp
  · match hp : strings.Split d.Id '/' with
    | [] => exact absurd hp (strings.Split_ne_nil _ _)
    | x :: xs => simp [goIndex_zero]
  · intro h3
    obtain ⟨b, t, s, hp⟩ := List.length_eq_three.mp h3
    rw [hp]
    simp [goIndex_one, goIndex_two]
  · intro h2
    obtain ⟨b, x, hp⟩ := List.length_eq_two.mp h2
    rw [hp]
    simp [goIndex_one]
  · intro x h2
    obtain ⟨t, ps, hp⟩ := List.length_eq_two.mp h2
    rw [hp]
    simp [goIndex_zero, goIndex_one]
  · intro n test h1 hbig
    have hneg : ¬ (n - 1 < 0) := by omega
    have hlt : (n - 1).toNat < test.Steps.length := by omega
    unfold goIndex
    rw [if_neg hneg, List.getElem?_eq_getElem hlt]
    exact Option.some_ne_none _

/-- The empty ID, and position 1 in a test without steps, end in an error. -/
theorem import_never_panics_witness :
    (importStateContext exampleTestGet (exampleData "")).2 ≠ .panic ∧
    (importStateContext (fun opts => .ok { Id := opts.Id, Steps := [] })
      (exampleData "b1/t1#1")).2 ≠ .panic :=
  ⟨(import_never_panics exampleTestGet (exampleData "")).1,
    (import_never_panics (fun opts => .ok { Id := opts.Id, Steps := [] })
      (exampleData "b1/t1#1")).1⟩

/-! ## Frame of the request-step Read -/

/-- C13: on a successful request-step Read, `method`, `url`, `variable`, `assertion`,
`header`, `body`, `form_parameter`, `scripts`, `before_scripts`, `note` and `skipped`
are overwritten from the returned step; `auth` is overwritten when the step's `Auth`
is non-empty and left exactly as it was (not cleared) when it is empty; the resource
ID, `bucket_id` and `test_id` are unchanged in both cases, and no diagnostic is
returned. -/
theorem request_read_frame (H : StepHelpers) (client : StepClient H) (d : ResourceData)
    (step : StepRequest H) (hget : client.GetRequest (readOpts d) = .ok step) :
    (resourceStepRequestRead H client d).diags = [] ∧
    (H.authEmpty step.Auth = true →
      (resourceStepRequestRead H client d).d.attrs "auth" = d.attrs "auth") ∧
    (H.authEmpty step.Auth = false →
      (resourceStepRequestRead H client d).d.attrs "auth" =
        some (H.flattenStepAuth step.Auth)) ∧
    (resourceStepRequestRead H client d).d.attrs "method" = some (.str step.Method) ∧
    (resourceStepRequestRead H client d).d.attrs "url" = some (.str step.StepURL) ∧
    (resourceStepRequestRead H client d).d.attrs "variable" =
      some (H.flattenStepVariables step.Variables) ∧
    (resourceStepRequestRead H client d).d.attrs "assertion" =
      some (H.flattenStepAssertions step.Assertions) ∧
    (resourceStepRequestRead H client d).d.attrs "header" =
      some (H.flattenStepHeaders step.Headers) ∧
    (resourceStepRequestRead H client d).d.attrs "body" = some (.str step.Body) ∧
    (resourceStepRequestRead H client d).d.attrs "form_parameter" =
      some (H.flattenFormParameters step.Form) ∧
    (resourceStepRequestRead H client d).d.attrs "scripts" = some (.strs step.Scripts) ∧
    (resourceStepRequestRead H client d).d.attrs "before_scripts" =
      some (.strs step.BeforeScripts) ∧
    (resourceStepRequestRead H client d).d.attrs "note" = some (.str step.Note) ∧
    (resourceStepRequestRead H client d).d.attrs "skipped" = some (.bool step.Skipped) ∧
    (resourceStepRequestRead H client d).d.Id = d.Id ∧
    (resourceStepRequestRead H client d).d.attrs "bucket_id" = d.attrs "bucket_id" ∧
    (resourceStepRequestRead H client d).d.attrs "test_id" = d.attrs "test_id" := by
  cases hauth : H.authEmpty step.Auth <;>
    simp [resourceStepRequestRead, hget, hauth, ResourceData.Set, ResourceData.Id]

/-- A step without credentials leaves the recorded `auth` block in place. -/
theorem request_read_frame_witness :
    (resourceStepRequestRead exampleHelpers exampleClientOk exampleAuthState).d.attrs "auth" =
      some (.blocks [[("username", "u"), ("auth_type", "basic"), ("password", "p")]]) :=
  (request_read_frame exampleHelpers exampleClientOk exampleAuthState
    (exampleStepRequest "s1") rfl).2.1 rfl

end Runscope
